import Mathlib

/-!
Formal model of the FitnessApp workout-tracking core.

The relational layer (src/lib/database.ts) is embedded as a `DB` record of
row lists, one per SQLite table created by `initDatabase`, together with
executable translations of the repository operations (`createRoutine`,
`getRoutineWithExercises`, `startWorkout`, `deleteRoutine`, `deleteWorkout`,
`deleteCustomExercise`, `getWorkoutSummary`).  SQLite semantics relevant to
these operations are modelled explicitly:

* `PRAGMA foreign_keys = ON` is in force, so every INSERT checks its
  foreign keys and every DELETE enforces the referencing tables' rules
  (`ON DELETE CASCADE` where the schema declares it, otherwise the SQLite
  default NO ACTION, which aborts the statement);
* `TEXT PRIMARY KEY` columns reject duplicate ids (UNIQUE);
* each statement is atomic, but the repository functions open no
  transaction, so statements committed before a failure stay committed;
* a statement whose WHERE clause names a column absent from the table
  fails at prepare time with a "no such column" error;
* `SUM` skips NULLs and an empty SUM is NULL (COALESCEd to 0 by the query),
  `COUNT(col)` counts non-NULL values, `COUNT(DISTINCT col)` counts
  distinct non-NULL values, and a LEFT JOIN keeps unmatched left rows.

SQLite REAL columns (weights, RPE) are modelled as `Rat`: no claim under
study depends on floating-point rounding.  Timestamps (`Date.now()`) are
`Int` milliseconds.  UUID generation is modelled by caller-supplied id
values; freshness/injectivity are stated as hypotheses where a result
needs them.

The active-workout state machine (src/stores/workoutStore.ts) is embedded
as a `Store.State` record with one Lean function per zustand action; each
action that reads `Date.now()` takes the current time as an argument.
JavaScript truthiness of the nullable `completedAt`/`startedAt` fields
(`!x` is true for both `null` and `0`) is modelled faithfully.
-/

namespace FitnessApp

/-- Row of the `exercises` table. -/
structure ExerciseRow where
  id : String
  name : String
  category : String
  equipment : String
  createdAt : Int
  isCustom : Bool
deriving DecidableEq, Repr

/-- Row of the `routine_templates` table. -/
structure RoutineTemplateRow where
  id : String
  name : String
  createdAt : Int
  updatedAt : Int
deriving DecidableEq, Repr

/-- Row of the `routine_exercises` table. -/
structure RoutineExerciseRow where
  id : String
  routineTemplateId : String
  exerciseId : String
  sortOrder : Int
  restSeconds : Int
  notes : Option String
  supersetGroupId : Option String
deriving DecidableEq, Repr

/-- Row of the `routine_exercise_sets` table. -/
structure RoutineExerciseSetRow where
  id : String
  routineExerciseId : String
  setNumber : Int
  targetReps : Int
  targetWeight : Option Rat
  setType : String
deriving DecidableEq, Repr

/-- Row of the `workout_sessions` table. -/
structure WorkoutSessionRow where
  id : String
  routineTemplateId : String
  name : String
  startedAt : Int
  completedAt : Option Int
  notes : Option String
  status : String
deriving DecidableEq, Repr

/-- Row of the `workout_exercises` table. -/
structure WorkoutExerciseRow where
  id : String
  workoutSessionId : String
  exerciseId : String
  routineExerciseId : Option String
  sortOrder : Int
  notes : Option String
deriving DecidableEq, Repr

/-- Row of the `workout_sets` table. -/
structure WorkoutSetRow where
  id : String
  workoutExerciseId : String
  setNumber : Int
  weight : Rat
  reps : Int
  rpe : Option Rat
  completedAt : Int
  setType : String
deriving DecidableEq, Repr

/-- Row of the `scheduled_workouts` table. -/
structure ScheduledWorkoutRow where
  id : String
  routineTemplateId : String
  scheduledDate : String
  createdAt : Int
deriving DecidableEq, Repr

/-- Row of the `workout_photos` table. -/
structure WorkoutPhotoRow where
  id : String
  workoutSessionId : String
  filePath : String
  sortOrder : Int
  createdAt : Int
deriving DecidableEq, Repr

/-- The whole SQLite database created by `initDatabase`. -/
structure DB where
  exercises : List ExerciseRow
  routineTemplates : List RoutineTemplateRow
  routineExercises : List RoutineExerciseRow
  routineExerciseSets : List RoutineExerciseSetRow
  workoutSessions : List WorkoutSessionRow
  workoutExercises : List WorkoutExerciseRow
  workoutSets : List WorkoutSetRow
  scheduledWorkouts : List ScheduledWorkoutRow
  workoutPhotos : List WorkoutPhotoRow
deriving DecidableEq, Repr

/-- The empty database (all tables created, nothing inserted). -/
def DB.empty : DB :=
  { exercises := [], routineTemplates := [], routineExercises := [],
    routineExerciseSets := [], workoutSessions := [], workoutExercises := [],
    workoutSets := [], scheduledWorkouts := [], workoutPhotos := [] }

/-- Sort a list by an integer key, as SQL `ORDER BY key` does.  SQLite does
not promise a particular order among equal keys, so results below that rely
on the order of the output carry a distinct-keys hypothesis. -/
def sortByKey {α : Type} (key : α → Int) (l : List α) : List α :=
  List.insertionSort (fun a b => key a ≤ key b) l

-- ==================== INPUT TYPES (src/types/index.ts) ====================

/-- `CreateRoutineExerciseSetInput` from src/types. -/
structure CreateRoutineExerciseSetInput where
  setNumber : Int
  targetReps : Int
  targetWeight : Option Rat
  setType : String
deriving DecidableEq, Repr

/-- `CreateRoutineExerciseInput` from src/types. -/
structure CreateRoutineExerciseInput where
  exerciseId : String
  order : Int
  restSeconds : Int
  notes : Option String
  supersetGroupId : Option String
  sets : List CreateRoutineExerciseSetInput
deriving DecidableEq, Repr

/-- `CreateRoutineInput` from src/types. -/
structure CreateRoutineInput where
  name : String
  exercises : List CreateRoutineExerciseInput
deriving DecidableEq, Repr

-- ==================== INSERT STATEMENTS ====================

/-- One INSERT statement issued by `createRoutine` or `startWorkout`. -/
inductive DbInsert where
  | tmpl (r : RoutineTemplateRow)
  | rex (r : RoutineExerciseRow)
  | rset (r : RoutineExerciseSetRow)
  | sess (r : WorkoutSessionRow)
  | wex (r : WorkoutExerciseRow)
deriving DecidableEq, Repr

/-- Execute one INSERT under `PRAGMA foreign_keys = ON`: reject a duplicate
primary key, reject a dangling foreign key, otherwise append the row. -/
def applyInsert (db : DB) : DbInsert → Except String DB
  | .tmpl r =>
    if db.routineTemplates.any (fun t => t.id == r.id) then
      .error "UNIQUE constraint failed"
    else .ok { db with routineTemplates := db.routineTemplates ++ [r] }
  | .rex r =>
    if db.routineExercises.any (fun x => x.id == r.id) then
      .error "UNIQUE constraint failed"
    else if !(db.routineTemplates.any (fun t => t.id == r.routineTemplateId)) then
      .error "FOREIGN KEY constraint failed"
    else if !(db.exercises.any (fun e => e.id == r.exerciseId)) then
      .error "FOREIGN KEY constraint failed"
    else .ok { db with routineExercises := db.routineExercises ++ [r] }
  | .rset r =>
    if db.routineExerciseSets.any (fun s => s.id == r.id) then
      .error "UNIQUE constraint failed"
    else if !(db.routineExercises.any (fun x => x.id == r.routineExerciseId)) then
      .error "FOREIGN KEY constraint failed"
    else .ok { db with routineExerciseSets := db.routineExerciseSets ++ [r] }
  | .sess r =>
    if db.workoutSessions.any (fun s => s.id == r.id) then
      .error "UNIQUE constraint failed"
    else if !(db.routineTemplates.any (fun t => t.id == r.routineTemplateId)) then
      .error "FOREIGN KEY constraint failed"
    else .ok { db with workoutSessions := db.workoutSessions ++ [r] }
  | .wex r =>
    if db.workoutExercises.any (fun x => x.id == r.id) then
      .error "UNIQUE constraint failed"
    else if !(db.workoutSessions.any (fun s => s.id == r.workoutSessionId)) then
      .error "FOREIGN KEY constraint failed"
    else if !(db.exercises.any (fun e => e.id == r.exerciseId)) then
      .error "FOREIGN KEY constraint failed"
    else
      match r.routineExerciseId with
      | none => .ok { db with workoutExercises := db.workoutExercises ++ [r] }
      | some reid =>
        if !(db.routineExercises.any (fun x => x.id == reid)) then
          .error "FOREIGN KEY constraint failed"
        else .ok { db with workoutExercises := db.workoutExercises ++ [r] }

/-- Run a sequence of INSERTs with no surrounding transaction: on the first
failure the statements already executed stay committed and the error is
reported; the remaining statements are not run. -/
def runInserts (db : DB) : List DbInsert → DB × Option String
  | [] => (db, none)
  | s :: rest =>
    match applyInsert db s with
    | .ok db1 => runInserts db1 rest
    | .error e => (db, some e)

namespace Db

-- ==================== createRoutine (database.ts 363-405) ====================

/-- The `routine_exercises` row inserted for one input exercise. -/
def mkRoutineExerciseRow (routineId reIdStr : String)
    (e : CreateRoutineExerciseInput) : RoutineExerciseRow :=
  { id := reIdStr, routineTemplateId := routineId, exerciseId := e.exerciseId,
    sortOrder := e.order, restSeconds := e.restSeconds, notes := e.notes,
    supersetGroupId := e.supersetGroupId }

/-- The `routine_exercise_sets` row inserted for one input set. -/
def mkRoutineExerciseSetRow (reIdStr setIdStr : String)
    (s : CreateRoutineExerciseSetInput) : RoutineExerciseSetRow :=
  { id := setIdStr, routineExerciseId := reIdStr, setNumber := s.setNumber,
    targetReps := s.targetReps, targetWeight := s.targetWeight,
    setType := s.setType }

/-- INSERT statements of the inner set loop of `createRoutine`, with the
UUID of the k-th set supplied by `setIdF k`. -/
def setInsertStmts (reIdStr : String) (setIdF : Nat → String) :
    Nat → List CreateRoutineExerciseSetInput → List DbInsert
  | _, [] => []
  | k, s :: rest =>
    .rset (mkRoutineExerciseSetRow reIdStr (setIdF k) s) ::
      setInsertStmts reIdStr setIdF (k + 1) rest

/-- INSERT statements of the exercise loop of `createRoutine`, with the UUID
of the j-th exercise supplied by `reId j` and of its k-th set by
`setId j k`. -/
def exerciseInsertStmts (routineId : String) (reId : Nat → String)
    (setId : Nat → Nat → String) :
    Nat → List CreateRoutineExerciseInput → List DbInsert
  | _, [] => []
  | j, e :: rest =>
    .rex (mkRoutineExerciseRow routineId (reId j) e) ::
      (setInsertStmts (reId j) (setId j) 0 e.sets ++
        exerciseInsertStmts routineId reId setId (j + 1) rest)

/-- All INSERT statements issued by `createRoutine`: first the
`routine_templates` row, then for every exercise its `routine_exercises`
row followed by its `routine_exercise_sets` rows. -/
def createRoutineStmts (now : Int) (routineId : String) (reId : Nat → String)
    (setId : Nat → Nat → String) (input : CreateRoutineInput) : List DbInsert :=
  .tmpl { id := routineId, name := input.name, createdAt := now, updatedAt := now } ::
    exerciseInsertStmts routineId reId setId 0 input.exercises

/-- `createRoutine` (database.ts 363-405): sequential INSERTs, no
transaction.  Returns the database as left behind (partial on failure) and
the error, if any; on success the caller receives `routineId`. -/
def createRoutine (db : DB) (now : Int) (routineId : String)
    (reId : Nat → String) (setId : Nat → Nat → String)
    (input : CreateRoutineInput) : DB × Option String :=
  runInserts db (createRoutineStmts now routineId reId setId input)

-- ==================== getRoutineWithExercises (database.ts 268-361) ====================

/-- `RoutineExerciseWithDetails` from src/types: a `routine_exercises` row
joined with its catalog exercise and its ordered target sets. -/
structure RoutineExerciseWithDetails where
  id : String
  routineTemplateId : String
  exerciseId : String
  order : Int
  restSeconds : Int
  notes : Option String
  supersetGroupId : Option String
  exercise : ExerciseRow
  sets : List RoutineExerciseSetRow
deriving DecidableEq, Repr

/-- `RoutineTemplateWithExercises` from src/types. -/
structure RoutineTemplateWithExercises where
  id : String
  name : String
  createdAt : Int
  updatedAt : Int
  exercises : List RoutineExerciseWithDetails
deriving DecidableEq, Repr

/-- The FROM/JOIN/WHERE part of the exercise query of
`getRoutineWithExercises`: `routine_exercises` rows of the template, inner
joined with `exercises` on the exercise id. -/
def routineJoinRows (db : DB) (routineId : String) :
    List (RoutineExerciseRow × ExerciseRow) :=
  (db.routineExercises.filter (fun re => re.routineTemplateId == routineId)).flatMap
    (fun re => (db.exercises.filter (fun e => e.id == re.exerciseId)).map
      (fun e => (re, e)))

/-- Assemble one `RoutineExerciseWithDetails` from a joined row, fetching
the target sets `ORDER BY set_number` exactly as the per-exercise query
does. -/
def attachDetails (db : DB) (p : RoutineExerciseRow × ExerciseRow) :
    RoutineExerciseWithDetails :=
  { id := p.1.id, routineTemplateId := p.1.routineTemplateId,
    exerciseId := p.1.exerciseId, order := p.1.sortOrder,
    restSeconds := p.1.restSeconds, notes := p.1.notes,
    supersetGroupId := p.1.supersetGroupId, exercise := p.2,
    sets := sortByKey (fun s => s.setNumber)
      (db.routineExerciseSets.filter (fun s => s.routineExerciseId == p.1.id)) }

/-- `getRoutineWithExercises` (database.ts 268-361): `none` when the id does
not resolve, otherwise the full aggregate with exercises `ORDER BY
sort_order` and each exercise's sets `ORDER BY set_number`. -/
def getRoutineWithExercises (db : DB) (routineId : String) :
    Option RoutineTemplateWithExercises :=
  match db.routineTemplates.find? (fun t => t.id == routineId) with
  | none => none
  | some t =>
    some { id := t.id, name := t.name, createdAt := t.createdAt,
           updatedAt := t.updatedAt,
           exercises := (sortByKey (fun p => p.1.sortOrder)
             (routineJoinRows db routineId)).map (attachDetails db) }

-- ==================== startWorkout (database.ts 414-452) ====================

/-- The `workout_exercises` row inserted for one routine exercise: copies
the exercise id, the back-reference, the order and the notes. -/
def mkWorkoutExerciseRow (workoutId weIdStr : String)
    (x : RoutineExerciseWithDetails) : WorkoutExerciseRow :=
  { id := weIdStr, workoutSessionId := workoutId, exerciseId := x.exerciseId,
    routineExerciseId := some x.id, sortOrder := x.order, notes := x.notes }

/-- INSERT statements of the exercise loop of `startWorkout`. -/
def workoutExerciseStmts (workoutId : String) (weId : Nat → String) :
    Nat → List RoutineExerciseWithDetails → List DbInsert
  | _, [] => []
  | j, x :: rest =>
    .wex (mkWorkoutExerciseRow workoutId (weId j) x) ::
      workoutExerciseStmts workoutId weId (j + 1) rest

/-- `startWorkout` (database.ts 414-452): resolves the template first and
throws `Routine not found` before touching the database when it is absent;
otherwise inserts the session row (`status = 'active'`, `started_at = now`,
name snapshotted from the template) and one `workout_exercises` row per
routine exercise; no `workout_sets` row is created. -/
def startWorkout (db : DB) (now : Int) (workoutId : String)
    (weId : Nat → String) (routineId : String) : DB × Option String :=
  match getRoutineWithExercises db routineId with
  | none => (db, some "Routine not found")
  | some routine =>
    runInserts db
      (.sess { id := workoutId, routineTemplateId := routineId,
               name := routine.name, startedAt := now, completedAt := none,
               notes := none, status := "active" } ::
        workoutExerciseStmts workoutId weId 0 routine.exercises)

-- ==================== deleteRoutine (database.ts 407-410) ====================

/-- `deleteRoutine` (database.ts 407-410): a single
`DELETE FROM routine_templates WHERE id = ?`.  Per the schema,
`routine_exercises` (and through it `routine_exercise_sets`) and
`scheduled_workouts` cascade, while `workout_sessions.routine_template_id`
and `workout_exercises.routine_exercise_id` declare no ON DELETE action, so
any such reference aborts the whole statement with a foreign-key error and
nothing is deleted. -/
def deleteRoutine (db : DB) (routineId : String) : DB × Option String :=
  let delReIds := (db.routineExercises.filter
    (fun re => re.routineTemplateId == routineId)).map (fun re => re.id)
  if db.workoutSessions.any (fun s => s.routineTemplateId == routineId) then
    (db, some "FOREIGN KEY constraint failed")
  else if db.workoutExercises.any (fun we =>
      match we.routineExerciseId with
      | none => false
      | some reid => delReIds.contains reid) then
    (db, some "FOREIGN KEY constraint failed")
  else
    ({ db with
        routineTemplates := db.routineTemplates.filter (fun t => !(t.id == routineId)),
        routineExercises := db.routineExercises.filter
          (fun re => !(re.routineTemplateId == routineId)),
        routineExerciseSets := db.routineExerciseSets.filter
          (fun s => !(delReIds.contains s.routineExerciseId)),
        scheduledWorkouts := db.scheduledWorkouts.filter
          (fun s => !(s.routineTemplateId == routineId)) }, none)

-- ==================== deleteWorkout (database.ts 739-750) ====================

/-- Columns of the `workout_sets` table as created by `initDatabase`. -/
def workoutSetsColumns : List String :=
  ["id", "workout_exercise_id", "set_number", "weight", "reps", "rpe",
   "completed_at", "set_type"]

/-- Columns of the `workout_photos` table as created by `initDatabase`. -/
def workoutPhotosColumns : List String :=
  ["id", "workout_session_id", "file_path", "sort_order", "created_at"]

/-- Text-valued column lookup on a `workout_sets` row (only the text
columns can be compared against the bound string parameter). -/
def workoutSetTextCol (r : WorkoutSetRow) (c : String) : Option String :=
  if c == "id" then some r.id
  else if c == "workout_exercise_id" then some r.workoutExerciseId
  else if c == "set_type" then some r.setType
  else none

/-- Text-valued column lookup on a `workout_photos` row. -/
def workoutPhotoTextCol (r : WorkoutPhotoRow) (c : String) : Option String :=
  if c == "id" then some r.id
  else if c == "workout_session_id" then some r.workoutSessionId
  else if c == "file_path" then some r.filePath
  else none

/-- Execute `DELETE FROM t WHERE whereCol = v`: SQLite rejects the statement
at prepare time when `whereCol` is not a column of the table. -/
def deleteWhereColumn {α : Type} (columns : List String)
    (textCol : α → String → Option String) (rows : List α)
    (whereCol : String) (v : String) : Except String (List α) :=
  if columns.contains whereCol then
    .ok (rows.filter (fun r => !(textCol r whereCol == some v)))
  else .error ("no such column: " ++ whereCol)

/-- Deleting a `workout_sessions` row cascades to its `workout_exercises`,
their `workout_sets`, and its `workout_photos` (all ON DELETE CASCADE). -/
def deleteSessionCascade (db : DB) (workoutId : String) : DB :=
  let delWeIds := (db.workoutExercises.filter
    (fun we => we.workoutSessionId == workoutId)).map (fun we => we.id)
  { db with
      workoutSessions := db.workoutSessions.filter (fun s => !(s.id == workoutId)),
      workoutExercises := db.workoutExercises.filter
        (fun we => !(we.workoutSessionId == workoutId)),
      workoutSets := db.workoutSets.filter
        (fun s => !(delWeIds.contains s.workoutExerciseId)),
      workoutPhotos := db.workoutPhotos.filter
        (fun p => !(p.workoutSessionId == workoutId)) }

/-- `deleteWorkout` (database.ts 739-750): three sequential statements,
`DELETE FROM workout_sets WHERE workout_id = ?`, `DELETE FROM
workout_photos WHERE workout_id = ?`, then `DELETE FROM workout_sessions
WHERE id = ?`.  Neither `workout_sets` nor `workout_photos` has a
`workout_id` column, so the first statement fails and the function throws
with the database untouched. -/
def deleteWorkout (db : DB) (workoutId : String) : DB × Option String :=
  match deleteWhereColumn workoutSetsColumns workoutSetTextCol db.workoutSets
      "workout_id" workoutId with
  | .error e => (db, some e)
  | .ok sets1 =>
    match deleteWhereColumn workoutPhotosColumns workoutPhotoTextCol
        db.workoutPhotos "workout_id" workoutId with
    | .error e => ({ db with workoutSets := sets1 }, some e)
    | .ok photos1 =>
      (deleteSessionCascade { db with workoutSets := sets1, workoutPhotos := photos1 }
        workoutId, none)

-- ==================== deleteCustomExercise (database.ts 793-817) ====================

/-- `deleteCustomExercise` (database.ts 793-817): rejects a missing or
non-custom exercise, then an exercise used by any `routine_exercises` row;
the final `DELETE FROM exercises WHERE id = ?` is still subject to the
NO ACTION foreign key from `workout_exercises.exercise_id`, which the
application-level guard does not check. -/
def deleteCustomExercise (db : DB) (exerciseId : String) : DB × Option String :=
  match db.exercises.find? (fun e => e.id == exerciseId) with
  | none => (db, some "Cannot delete non-custom exercise")
  | some ex =>
    if !ex.isCustom then (db, some "Cannot delete non-custom exercise")
    else if 0 < (db.routineExercises.filter
        (fun re => re.exerciseId == exerciseId)).length then
      (db, some "Cannot delete exercise that is used in a routine")
    else if db.workoutExercises.any (fun we => we.exerciseId == exerciseId) then
      (db, some "FOREIGN KEY constraint failed")
    else
      ({ db with exercises :=
          db.exercises.filter (fun e => !(e.id == exerciseId)) }, none)

-- ==================== getWorkoutSummary (database.ts 607-652) ====================

/-- `WorkoutSummary` from database.ts. -/
structure WorkoutSummary where
  id : String
  name : String
  startedAt : Int
  completedAt : Option Int
  duration : Int
  totalVolume : Rat
  totalSets : Nat
  exerciseCount : Nat
deriving DecidableEq, Repr

/-- The LEFT JOIN of the stats query of `getWorkoutSummary`: every
`workout_exercises` row of the session, paired with each of its
`workout_sets` rows, or with `none` when it has no set. -/
def summaryJoinRows (db : DB) (workoutId : String) :
    List (WorkoutExerciseRow × Option WorkoutSetRow) :=
  (db.workoutExercises.filter (fun we => we.workoutSessionId == workoutId)).flatMap
    (fun we =>
      match db.workoutSets.filter (fun s => s.workoutExerciseId == we.id) with
      | [] => [(we, none)]
      | ms => ms.map (fun s => (we, some s)))

/-- `getWorkoutSummary` (database.ts 607-652).  `SUM(ws.weight * ws.reps)`
skips the NULLs of unmatched rows and is COALESCEd to 0; `COUNT(ws.id)`
counts matched set rows; `COUNT(DISTINCT we.exercise_id)` counts distinct
exercise ids over all joined rows (matched or not).  Duration is
`Math.floor((completed_at - started_at) / 1000)` behind a JavaScript
truthiness test of `completed_at`. -/
def getWorkoutSummary (db : DB) (workoutId : String) : Option WorkoutSummary :=
  match db.workoutSessions.find? (fun s => s.id == workoutId) with
  | none => none
  | some w =>
    let joined := summaryJoinRows db workoutId
    some { id := w.id, name := w.name, startedAt := w.startedAt,
           completedAt := w.completedAt,
           duration :=
             match w.completedAt with
             | none => 0
             | some c => if c == 0 then 0 else Int.fdiv (c - w.startedAt) 1000,
           totalVolume :=
             ((joined.filterMap (fun p => p.2)).map
               (fun s => s.weight * (s.reps : Rat))).sum,
           totalSets := (joined.filterMap (fun p => p.2)).length,
           exerciseCount := ((joined.map (fun p => p.1.exerciseId)).dedup).length }

end Db

-- ==================== ACTIVE-WORKOUT STATE MACHINE (workoutStore.ts) ====================

namespace Store

/-- `RESUME_WINDOW_MS = 10 * 60 * 1000` (workoutStore.ts 8). -/
def RESUME_WINDOW_MS : Int := 10 * 60 * 1000

/-- The zustand `ActiveWorkoutState` fields (workoutStore.ts 10-26); the
`loggedSets` Map is an association list. -/
structure State where
  activeWorkoutId : Option String
  workoutName : Option String
  routineTemplateId : Option String
  startedAt : Option Int
  completedAt : Option Int
  isInResumeWindow : Bool
  currentExerciseIndex : Int
  currentSetNumber : Int
  loggedSets : List (String × List WorkoutSetRow)
deriving DecidableEq, Repr

/-- JavaScript truthiness test `!x` on a nullable timestamp: true for
`null` and for `0`. -/
def jsTimeFalsy : Option Int → Bool
  | none => true
  | some v => v == 0

/-- The store's initial state (workoutStore.ts 44-52). -/
def initialState : State :=
  { activeWorkoutId := none, workoutName := none, routineTemplateId := none,
    startedAt := none, completedAt := none, isInResumeWindow := false,
    currentExerciseIndex := 0, currentSetNumber := 1, loggedSets := [] }

/-- `startWorkout` (workoutStore.ts 54-66): unconditionally replaces every
field with the new workout's, no check of an existing active workout. -/
def startWorkout (s : State) (now : Int)
    (workoutId name routineTemplateId : String) : State :=
  { s with
      activeWorkoutId := some workoutId, workoutName := some name,
      routineTemplateId := some routineTemplateId, startedAt := some now,
      completedAt := none, isInResumeWindow := false,
      currentExerciseIndex := 0, currentSetNumber := 1, loggedSets := [] }

/-- `setCurrentExercise` (workoutStore.ts 68-70). -/
def setCurrentExercise (s : State) (index : Int) : State :=
  { s with currentExerciseIndex := index, currentSetNumber := 1 }

/-- `setCurrentSet` (workoutStore.ts 72-74). -/
def setCurrentSet (s : State) (setNumber : Int) : State :=
  { s with currentSetNumber := setNumber }

/-- `addLoggedSet` (workoutStore.ts 76-82): append-only per-exercise cache. -/
def addLoggedSet (s : State) (workoutExerciseId : String)
    (workoutSet : WorkoutSetRow) : State :=
  let exerciseSets :=
    match s.loggedSets.lookup workoutExerciseId with
    | none => []
    | some l => l
  { s with loggedSets :=
      (workoutExerciseId, exerciseSets ++ [workoutSet]) ::
        s.loggedSets.filter (fun p => !(p.1 == workoutExerciseId)) }

/-- `markCompleted` (workoutStore.ts 84-90). -/
def markCompleted (s : State) (now : Int) : State :=
  { s with completedAt := some now, isInResumeWindow := true }

/-- The full reset written out in `endWorkout`, `abandonWorkout` and the
expiry branch of `checkResumeWindow`. -/
def resetState : State := initialState

/-- `resumeWorkout` (workoutStore.ts 92-106): returns whether the resume was
applied, together with the state after the call. -/
def resumeWorkout (s : State) (now : Int) : Bool × State :=
  if jsTimeFalsy s.completedAt || !s.isInResumeWindow then (false, s)
  else
    match s.completedAt with
    | none => (false, s)
    | some c =>
      if now - c ≤ RESUME_WINDOW_MS then
        (true, { s with completedAt := none, isInResumeWindow := false })
      else (false, s)

/-- `checkResumeWindow` (workoutStore.ts 108-129). -/
def checkResumeWindow (s : State) (now : Int) : Bool × State :=
  if jsTimeFalsy s.completedAt || !s.isInResumeWindow then (false, s)
  else
    match s.completedAt with
    | none => (false, s)
    | some c =>
      if RESUME_WINDOW_MS < now - c then (false, resetState)
      else (true, s)

/-- `endWorkout` (workoutStore.ts 131-143). -/
def endWorkout (_s : State) : State := resetState

/-- `abandonWorkout` (workoutStore.ts 145-157). -/
def abandonWorkout (_s : State) : State := resetState

/-- `getElapsedSeconds` (workoutStore.ts 159-163). -/
def getElapsedSeconds (s : State) (now : Int) : Int :=
  match s.startedAt with
  | none => 0
  | some t => if t == 0 then 0 else Int.fdiv (now - t) 1000

end Store

/-- Outcome of the UI's start-workout entry point. -/
inductive StartResolution where
  | conflictPrompt
  | started (s2 : Store.State)
deriving DecidableEq, Repr

/-- `handleStartWorkout` (app/(tabs)/index.tsx 47-67): when a workout is
already active it shows the `Workout in Progress` alert (continue /
abandon-and-start-new / cancel) and performs no state change by itself;
only when no workout is active does it start the new one. -/
def handleStartWorkout (s : Store.State) (now : Int)
    (workoutId name templateId : String) : StartResolution :=
  match s.activeWorkoutId with
  | some _ => .conflictPrompt
  | none => .started (Store.startWorkout s now workoutId name templateId)

-- ==================== SPEC-SIDE AGGREGATE DEFINITIONS ====================

namespace Db

/-- The session's `workout_exercises` rows. -/
def sessionExercises (db : DB) (workoutId : String) : List WorkoutExerciseRow :=
  db.workoutExercises.filter (fun we => we.workoutSessionId == workoutId)

/-- All logged sets of the session: the `workout_sets` rows of each of the
session's `workout_exercises`, in exercise order. -/
def sessionSets (db : DB) (workoutId : String) : List WorkoutSetRow :=
  (sessionExercises db workoutId).flatMap
    (fun we => db.workoutSets.filter (fun s => s.workoutExerciseId == we.id))

/-- Projection of a stored target-set row back onto the input type: the
fields `createRoutine` received. -/
def projSet (s : RoutineExerciseSetRow) : CreateRoutineExerciseSetInput :=
  { setNumber := s.setNumber, targetReps := s.targetReps,
    targetWeight := s.targetWeight, setType := s.setType }

/-- Projection of a retrieved routine exercise back onto the input type. -/
def projEx (x : RoutineExerciseWithDetails) : CreateRoutineExerciseInput :=
  { exerciseId := x.exerciseId, order := x.order, restSeconds := x.restSeconds,
    notes := x.notes, supersetGroupId := x.supersetGroupId,
    sets := x.sets.map projSet }

/-- The input exercises as the round-trip should return them: each
exercise's sets sorted by `setNumber`, the exercises sorted by `order`. -/
def normInput (l : List CreateRoutineExerciseInput) :
    List CreateRoutineExerciseInput :=
  sortByKey (fun e => e.order)
    (l.map (fun e => { e with sets := sortByKey (fun s => s.setNumber) e.sets }))

/-- The `routine_exercises` rows `createRoutine` builds, in insertion
order, the j-th exercise receiving id `reId j`. -/
def buildREs (routineId : String) (reId : Nat → String) :
    Nat → List CreateRoutineExerciseInput → List RoutineExerciseRow
  | _, [] => []
  | j, e :: rest =>
    mkRoutineExerciseRow routineId (reId j) e :: buildREs routineId reId (j + 1) rest

/-- The `routine_exercise_sets` rows built for one exercise. -/
def buildSetsFor (reIdStr : String) (setIdF : Nat → String) :
    Nat → List CreateRoutineExerciseSetInput → List RoutineExerciseSetRow
  | _, [] => []
  | k, s :: rest =>
    mkRoutineExerciseSetRow reIdStr (setIdF k) s ::
      buildSetsFor reIdStr setIdF (k + 1) rest

/-- All `routine_exercise_sets` rows `createRoutine` builds, grouped by
exercise in insertion order. -/
def buildAllSets (reId : Nat → String) (setId : Nat → Nat → String) :
    Nat → List CreateRoutineExerciseInput → List RoutineExerciseSetRow
  | _, [] => []
  | j, e :: rest =>
    buildSetsFor (reId j) (setId j) 0 e.sets ++ buildAllSets reId setId (j + 1) rest

/-- What `projEx ∘ attachDetails db` gives on a joined row, expressed on
the `routine_exercises` row alone (the catalog component is dropped by the
projection). -/
def projExRow (db : DB) (re : RoutineExerciseRow) : CreateRoutineExerciseInput :=
  { exerciseId := re.exerciseId, order := re.sortOrder,
    restSeconds := re.restSeconds, notes := re.notes,
    supersetGroupId := re.supersetGroupId,
    sets := (sortByKey (fun s => s.setNumber)
      (db.routineExerciseSets.filter
        (fun s => s.routineExerciseId == re.id))).map projSet }

/-- The `workout_exercises` rows `startWorkout` builds from the resolved
template, in order, the j-th receiving id `weId j`. -/
def buildWEs (workoutId : String) (weId : Nat → String) :
    Nat → List RoutineExerciseWithDetails → List WorkoutExerciseRow
  | _, [] => []
  | j, x :: rest =>
    mkWorkoutExerciseRow workoutId (weId j) x :: buildWEs workoutId weId (j + 1) rest

end Db

-- ==================== CONCRETE SCENARIO DATA ====================

/-- An in-progress state with workout `A` active, used as the concrete
prior state for the exclusivity and resume-window claims. -/
def activeStateA : Store.State :=
  { Store.initialState with
      activeWorkoutId := some "A", workoutName := some "Legs",
      routineTemplateId := some "T1", startedAt := some 100,
      currentExerciseIndex := 2, currentSetNumber := 3 }

/-- A seeded (non-custom) catalog exercise. -/
def seededBench : ExerciseRow :=
  { id := "e1", name := "Barbell Bench Press", category := "chest",
    equipment := "barbell", createdAt := 0, isCustom := false }

/-- A catalog with one seeded exercise, the starting database for the
atomicity scenario. -/
def c1db : DB :=
  { DB.empty with exercises := [seededBench] }

/-- A `createRoutine` input with one exercise whose `exerciseId` does not
resolve, so the second INSERT (`routine_exercises`) fails. -/
def c1input : CreateRoutineInput :=
  { name := "Push Day",
    exercises := [{ exerciseId := "missing", order := 0, restSeconds := 90,
                    notes := none, supersetGroupId := none, sets := [] }] }

/-- The database and error left behind by the failing `createRoutine`. -/
def c1result : DB × Option String :=
  Db.createRoutine c1db 1000 "T1" (fun _ => "RE0") (fun _ _ => "S0") c1input

/-- One routine template row. -/
def tmplRowT1 : RoutineTemplateRow :=
  { id := "T1", name := "Push", createdAt := 0, updatedAt := 0 }

/-- A completed historical session that references template T1. -/
def sessionRowW1 : WorkoutSessionRow :=
  { id := "w1", routineTemplateId := "T1", name := "Push", startedAt := 0,
    completedAt := some 5000, notes := none, status := "completed" }

/-- A workout-exercise row of session w1 referencing catalog exercise e1
(no routine back-reference). -/
def weRowWe1 : WorkoutExerciseRow :=
  { id := "we1", workoutSessionId := "w1", exerciseId := "e1",
    routineExerciseId := none, sortOrder := 0, notes := none }

/-- Database for the C3 counterexample: a session with one exercise row and
zero logged sets. -/
def c3db : DB :=
  { DB.empty with
      exercises := [seededBench], routineTemplates := [tmplRowT1],
      workoutSessions := [sessionRowW1], workoutExercises := [weRowWe1] }

/-- Database for the C7 counterexample: a template with one exercise and a
historical completed session referencing the template. -/
def reRowRE0 : RoutineExerciseRow :=
  { id := "RE0", routineTemplateId := "T1", exerciseId := "e1",
    sortOrder := 0, restSeconds := 90, notes := none, supersetGroupId := none }

def c7db : DB :=
  { DB.empty with
      exercises := [seededBench], routineTemplates := [tmplRowT1],
      routineExercises := [reRowRE0],
      workoutSessions := [sessionRowW1] }

/-- A custom exercise. -/
def customCurl : ExerciseRow :=
  { id := "e1", name := "My Curl", category := "biceps",
    equipment := "dumbbell", createdAt := 0, isCustom := true }

/-- Database for the C9 counterexample: a custom exercise referenced by no
RoutineExercise but by one WorkoutExercise of a historical session. -/
def c9db : DB :=
  { DB.empty with
      exercises := [customCurl], routineTemplates := [tmplRowT1],
      workoutSessions := [sessionRowW1], workoutExercises := [weRowWe1] }

/-- Database for the C9 witness: a custom exercise referenced by nothing. -/
def c9freeDb : DB :=
  { DB.empty with exercises := [customCurl] }

/-- A provably injective UUID stand-in: a tag character followed by a
unary-encoded counter. -/
def repId (c : Char) (i : Nat) : String :=
  String.mk (c :: List.replicate i 'x')

/-- A provably pairwise-injective UUID stand-in for the nested set loop. -/
def pairId (i k : Nat) : String :=
  String.mk ('S' :: (List.replicate i 'x' ++ 'y' :: List.replicate k 'z'))

/-- Round-trip witness input: two exercises supplied out of `order`, the
first exercise's sets supplied out of `setNumber` order. -/
def c5input : CreateRoutineInput :=
  { name := "Push",
    exercises :=
      [{ exerciseId := "e1", order := 1, restSeconds := 90, notes := none,
         supersetGroupId := none,
         sets := [{ setNumber := 2, targetReps := 8, targetWeight := some 100,
                    setType := "normal" },
                  { setNumber := 1, targetReps := 5, targetWeight := none,
                    setType := "warmup" }] },
       { exerciseId := "e1", order := 0, restSeconds := 60,
         notes := some "slow", supersetGroupId := none, sets := [] }] }

/-- Database for the C8 witness: a template with one exercise and no target
sets, alongside the seeded catalog. -/
def c8db : DB :=
  { DB.empty with
      exercises := [seededBench],
      routineTemplates := [tmplRowT1],
      routineExercises := [reRowRE0] }

/-- The one exercise of the aggregate `getRoutineWithExercises` returns
for `c8db`/`T1`. -/
def c8rewd : Db.RoutineExerciseWithDetails :=
  { id := "RE0", routineTemplateId := "T1", exerciseId := "e1", order := 0,
    restSeconds := 90, notes := none, supersetGroupId := none,
    exercise := seededBench, sets := [] }

/-- The aggregate `getRoutineWithExercises` returns for `c8db`/`T1`. -/
def c8routine : Db.RoutineTemplateWithExercises :=
  { id := "T1", name := "Push", createdAt := 0, updatedAt := 0,
    exercises := [c8rewd] }

-- ==================== GENERIC LIST / SORT LEMMAS ====================

theorem find?_append_of_none {α : Type} (p : α → Bool) (l1 l2 : List α)
    (h : ∀ x ∈ l1, p x = false) : (l1 ++ l2).find? p = l2.find? p := by
  induction l1 with
  | nil => rfl
  | cons a l ih =>
    have ha := h a (List.mem_cons_self a l)
    simp only [List.cons_append, List.find?]
    rw [ha]
    exact ih (fun x hx => h x (List.mem_cons_of_mem a hx))

theorem filter_eq_nil_of_false {α : Type} (p : α → Bool) (l : List α)
    (h : ∀ x ∈ l, p x = false) : l.filter p = [] := by
  induction l with
  | nil => rfl
  | cons a l ih =>
    have ha := h a (List.mem_cons_self a l)
    simp only [List.filter, ha]
    exact ih (fun x hx => h x (List.mem_cons_of_mem a hx))

theorem filter_eq_self_of_true {α : Type} (p : α → Bool) (l : List α)
    (h : ∀ x ∈ l, p x = true) : l.filter p = l := by
  induction l with
  | nil => rfl
  | cons a l ih =>
    have ha := h a (List.mem_cons_self a l)
    simp only [List.filter, ha]
    rw [ih (fun x hx => h x (List.mem_cons_of_mem a hx))]

theorem sortByKey_perm {α : Type} (key : α → Int) (l : List α) :
    (sortByKey key l).Perm l :=
  List.perm_insertionSort _ l

theorem sortByKey_sorted {α : Type} (key : α → Int) (l : List α) :
    (sortByKey key l).Sorted (fun a b => key a ≤ key b) := by
  haveI : IsTotal α (fun a b => key a ≤ key b) := ⟨fun a b => Int.le_total _ _⟩
  haveI : IsTrans α (fun a b => key a ≤ key b) := ⟨fun _ _ _ h1 h2 => le_trans h1 h2⟩
  exact List.sorted_insertionSort _ l

/-- A list sorted by a key, whose keys are pairwise distinct, is sorted by
the strict key order. -/
theorem sorted_strict_of_sorted_nodup {α : Type} (key : α → Int) (l : List α)
    (hs : l.Sorted (fun a b => key a ≤ key b)) (hn : (l.map key).Nodup) :
    l.Sorted (fun a b => key a < key b) := by
  have hne : l.Pairwise (fun a b => key a ≠ key b) := by
    rw [List.Nodup, List.pairwise_map] at hn
    exact hn
  exact (hs.and hne).imp (fun h => lt_of_le_of_ne h.1 h.2)

/-- Two permuted lists, both sorted by a key that is injective on them, are
equal.  This is the uniqueness fact behind reading `ORDER BY` output back. -/
theorem sortByKey_eq_of_sorted_nodup {α : Type} (key : α → Int) (l m : List α)
    (hperm : l.Perm m) (hsorted : m.Sorted (fun a b => key a ≤ key b))
    (hnodup : (l.map key).Nodup) : sortByKey key l = m := by
  haveI : IsAntisymm α (fun a b => key a < key b) :=
    ⟨fun a b h1 h2 => absurd (lt_trans h1 h2) (lt_irrefl _)⟩
  have hperm1 : (sortByKey key l).Perm m := (sortByKey_perm key l).trans hperm
  have hn1 : ((sortByKey key l).map key).Nodup :=
    (((sortByKey_perm key l).map key).nodup_iff).mpr hnodup
  have hnm : (m.map key).Nodup := ((hperm.map key).nodup_iff).mp hnodup
  exact List.eq_of_perm_of_sorted hperm1
    (sorted_strict_of_sorted_nodup key _ (sortByKey_sorted key l) hn1)
    (sorted_strict_of_sorted_nodup key m hsorted hnm)

/-- Mapping a key-preserving function commutes with sorting, provided the
keys are pairwise distinct. -/
theorem sortByKey_map {α β : Type} (key : α → Int) (key2 : β → Int) (f : α → β)
    (hkey : ∀ a, key2 (f a) = key a) (l : List α)
    (hnodup : (l.map key).Nodup) :
    (sortByKey key l).map f = sortByKey key2 (l.map f) := by
  have hperm : (l.map f).Perm ((sortByKey key l).map f) :=
    ((sortByKey_perm key l).map f).symm
  have hsorted : ((sortByKey key l).map f).Sorted (fun a b => key2 a ≤ key2 b) := by
    have := sortByKey_sorted key l
    exact List.Pairwise.map f (fun {a b} h => by
      rw [hkey a, hkey b]; exact h) this
  have hnodup2 : ((l.map f).map key2).Nodup := by
    rw [List.map_map]
    have : (key2 ∘ f) = key := funext hkey
    rw [this]; exact hnodup
  exact (sortByKey_eq_of_sorted_nodup key2 (l.map f) ((sortByKey key l).map f)
    hperm hsorted hnodup2).symm

-- ==================== CLAIM C6 ====================

/-- C6: the claim says `deleteWorkout(workoutId)` succeeds and hard-deletes
the session together with its WorkoutExercise, WorkoutSet and WorkoutPhoto
rows.  In fact its first statement, `DELETE FROM workout_sets WHERE
workout_id = ?`, names a column that does not exist in `workout_sets`
(the column is `workout_exercise_id`), so for every database and every
workout id the function throws `no such column: workout_id` and deletes
nothing at all. -/
theorem c6_deleteWorkout_no_such_column (db : DB) (workoutId : String) :
    Db.deleteWorkout db workoutId = (db, some "no such column: workout_id") := rfl

-- ==================== CLAIM C10 ====================

/-- C10: `setCurrentExercise(index)` sets `currentExerciseIndex` to the
given index, always resets `currentSetNumber` to 1, and leaves all other
state-machine fields unchanged. -/
theorem c10_setCurrentExercise_resets_cursor (s : Store.State) (index : Int) :
    (Store.setCurrentExercise s index).currentExerciseIndex = index ∧
    (Store.setCurrentExercise s index).currentSetNumber = 1 ∧
    (Store.setCurrentExercise s index).activeWorkoutId = s.activeWorkoutId ∧
    (Store.setCurrentExercise s index).workoutName = s.workoutName ∧
    (Store.setCurrentExercise s index).routineTemplateId = s.routineTemplateId ∧
    (Store.setCurrentExercise s index).startedAt = s.startedAt ∧
    (Store.setCurrentExercise s index).completedAt = s.completedAt ∧
    (Store.setCurrentExercise s index).isInResumeWindow = s.isInResumeWindow ∧
    (Store.setCurrentExercise s index).loggedSets = s.loggedSets :=
  ⟨rfl, rfl, rfl, rfl, rfl, rfl, rfl, rfl, rfl⟩

-- ==================== CLAIM C2 ====================

/-- C2 counterexample: the claim says that in every state with a non-null
`activeWorkoutId`, invoking the state machine's `startWorkout` for a new
workout is surfaced as a conflict rather than applied.  In the state with
workout `A` active, `startWorkout` for workout `B` is applied: the store
simply replaces the active workout, discarding `A`'s control state. -/
theorem c2_startWorkout_applies_counterexample :
    activeStateA.activeWorkoutId = some "A" ∧
    (Store.startWorkout activeStateA 200 "B" "Push" "T2").activeWorkoutId = some "B" ∧
    some "B" ≠ (some "A" : Option String) :=
  ⟨rfl, rfl, by decide⟩

/-- C2 (amended): in every state of the state machine where
`activeWorkoutId` is non-null, invoking `startWorkout` for a new workout is
applied, not surfaced as a conflict: the store unconditionally replaces the
active workout with the new one, resetting the cursor to (0, 1) and
clearing the logged-set cache, so the previous workout's control state is
discarded.  The state machine itself has no conflict channel; any conflict
prompting is left to individual callers. -/
theorem c2_startWorkout_replaces_active (s : Store.State) (now : Int)
    (workoutId name templateId a : String)
    (hactive : s.activeWorkoutId = some a) :
    Store.startWorkout s now workoutId name templateId =
      { activeWorkoutId := some workoutId, workoutName := some name,
        routineTemplateId := some templateId, startedAt := some now,
        completedAt := none, isInResumeWindow := false,
        currentExerciseIndex := 0, currentSetNumber := 1, loggedSets := [] } ∧
    (workoutId ≠ a →
      (Store.startWorkout s now workoutId name templateId).activeWorkoutId ≠
        s.activeWorkoutId) := by
  refine ⟨rfl, fun h => ?_⟩
  rw [hactive]
  intro heq
  exact h (Option.some.inj heq)

/-- C2 witness: the amended statement applied to the concrete active
state. -/
theorem c2_startWorkout_replaces_active_witness :
    Store.startWorkout activeStateA 200 "B" "Push" "T2" =
      { activeWorkoutId := some "B", workoutName := some "Push",
        routineTemplateId := some "T2", startedAt := some 200,
        completedAt := none, isInResumeWindow := false,
        currentExerciseIndex := 0, currentSetNumber := 1, loggedSets := [] } ∧
    ("B" ≠ "A" →
      (Store.startWorkout activeStateA 200 "B" "Push" "T2").activeWorkoutId ≠
        activeStateA.activeWorkoutId) :=
  c2_startWorkout_replaces_active activeStateA 200 "B" "Push" "T2" "A" rfl

-- ==================== CLAIM C4 ====================

/-- C4: after `markCompleted()` stamps `completedAt = t0` (a real
`Date.now()` value, hence positive), `resumeWorkout()` within the
600-second window returns true and transitions back to in-progress,
clearing `completedAt` and `isInResumeWindow`; after the window it returns
false without mutating state; `checkResumeWindow()` after expiry performs
the full reset to the idle state and returns false, and within the window
returns true with no side effect. -/
theorem c4_resume_window_boundary (s : Store.State) (t0 t : Int) (h0 : 0 < t0) :
    (t - t0 ≤ 600000 →
      Store.resumeWorkout (Store.markCompleted s t0) t =
        (true, { s with completedAt := none, isInResumeWindow := false })) ∧
    (600000 < t - t0 →
      Store.resumeWorkout (Store.markCompleted s t0) t =
        (false, Store.markCompleted s t0)) ∧
    (600000 < t - t0 →
      Store.checkResumeWindow (Store.markCompleted s t0) t =
        (false, Store.resetState)) ∧
    (t - t0 ≤ 600000 →
      Store.checkResumeWindow (Store.markCompleted s t0) t =
        (true, Store.markCompleted s t0)) := by
  have ht0 : (t0 == 0) = false := by
    rw [beq_eq_false_iff_ne]
    omega
  have hwin : Store.RESUME_WINDOW_MS = 600000 := by norm_num [Store.RESUME_WINDOW_MS]
  refine ⟨fun h => ?_, fun h => ?_, fun h => ?_, fun h => ?_⟩ <;>
    simp only [Store.resumeWorkout, Store.checkResumeWindow, Store.markCompleted,
      Store.jsTimeFalsy, ht0, Bool.not_true, Bool.or_false, Bool.false_or,
      hwin, Bool.false_eq_true, if_false]
  · rw [if_pos h]
  · rw [if_neg (by omega)]
  · rw [if_pos h]
  · rw [if_neg (by omega)]

/-- C4 witness: completion at t0 = 1000, poll at t0 + 599000 (599 s in). -/
theorem c4_resume_window_boundary_witness :
    Store.resumeWorkout (Store.markCompleted activeStateA 1000) 600000 =
      (true, { activeStateA with completedAt := none, isInResumeWindow := false }) :=
  (c4_resume_window_boundary activeStateA 1000 600000 (by decide)).1 (by decide)

-- ==================== CLAIM C1 ====================


/-- C1: the claim says `createRoutine` commits its dependent inserts as one
atomic unit, so that no rows remain when a nested insert fails and no
reader can observe a template created with N > 0 exercises having zero
exercises.  The code opens no transaction: when the `routine_exercises`
INSERT fails, the already-committed `routine_templates` row stays, and
`getRoutineWithExercises` then returns the template created with one
exercise as having zero exercises.  (`startWorkout` has the same
statement-by-statement structure and no transaction either.) -/
theorem c1_partial_insert_observable :
    c1result.2 = some "FOREIGN KEY constraint failed" ∧
    c1input.exercises.length = 1 ∧
    Db.getRoutineWithExercises c1result.1 "T1" =
      some { id := "T1", name := "Push Day", createdAt := 1000,
             updatedAt := 1000, exercises := [] } :=
  ⟨rfl, rfl, rfl⟩

-- ==================== CLAIM C3 ====================

/-- The matched rows of the summary LEFT JOIN are exactly the session's
logged sets, in join order. -/
theorem summaryJoin_filterMap (db : DB) (workoutId : String) :
    (Db.summaryJoinRows db workoutId).filterMap (fun p => p.2) =
      Db.sessionSets db workoutId := by
  unfold Db.summaryJoinRows Db.sessionSets Db.sessionExercises
  induction db.workoutExercises.filter (fun we => we.workoutSessionId == workoutId) with
  | nil => rfl
  | cons we rest ih =>
    rw [List.flatMap_cons, List.flatMap_cons, List.filterMap_append, ih]
    congr 1
    cases h : db.workoutSets.filter (fun s => s.workoutExerciseId == we.id) with
    | nil => simp
    | cons s ms =>
      rw [List.filterMap_map]
      exact List.filterMap_some _

/-- Every joined row's left component is one of the session's exercise
rows, and every session exercise row occurs as a left component. -/
theorem summaryJoin_fst_mem (db : DB) (workoutId : String) (a : String) :
    (a ∈ (Db.summaryJoinRows db workoutId).map (fun p => p.1.exerciseId)) ↔
      a ∈ (Db.sessionExercises db workoutId).map (fun we => we.exerciseId) := by
  unfold Db.summaryJoinRows Db.sessionExercises
  constructor
  · intro h
    obtain ⟨p, hp, hpe⟩ := List.mem_map.mp h
    obtain ⟨we, hwe, hpin⟩ := List.mem_flatMap.mp hp
    have hfst : p.1 = we := by
      revert hpin
      cases db.workoutSets.filter (fun s => s.workoutExerciseId == we.id) with
      | nil =>
        intro hpin
        rcases List.mem_singleton.mp hpin with h1
        rw [h1]
      | cons s ms =>
        intro hpin
        obtain ⟨x, _, hx⟩ := List.mem_map.mp hpin
        rw [← hx]
    exact List.mem_map.mpr ⟨we, hwe, by rw [← hfst]; exact hpe⟩
  · intro h
    obtain ⟨we, hwe, hwa⟩ := List.mem_map.mp h
    refine List.mem_map.mpr ?_
    cases hms : db.workoutSets.filter (fun s => s.workoutExerciseId == we.id) with
    | nil =>
      refine ⟨(we, none), List.mem_flatMap.mpr ⟨we, hwe, ?_⟩, hwa⟩
      rw [hms]
      exact List.mem_singleton.mpr rfl
    | cons s ms =>
      refine ⟨(we, some s), List.mem_flatMap.mpr ⟨we, hwe, ?_⟩, hwa⟩
      rw [hms]
      exact List.mem_map.mpr ⟨s, List.mem_cons_self s ms, rfl⟩

/-- Lists with the same members have dedups of the same length. -/
theorem dedup_length_eq_of_mem_iff {α : Type} [DecidableEq α] (l m : List α)
    (h : ∀ a, a ∈ l ↔ a ∈ m) : l.dedup.length = m.dedup.length := by
  rw [← List.card_toFinset, ← List.card_toFinset]
  congr 1
  ext a
  rw [List.mem_toFinset, List.mem_toFinset]
  exact h a

/-- C3 counterexample: the claim says `exerciseCount` is the number of
distinct exercise ids logged, so that a session with zero logged sets
reports `exerciseCount = 0`.  The session `w1` of `c3db` has zero logged
sets (`totalSets = 0`) yet `exerciseCount = 1`: `COUNT(DISTINCT
we.exercise_id)` also counts the exercise rows the LEFT JOIN leaves
unmatched. -/
theorem c3_zero_sets_counterexample :
    (Db.getWorkoutSummary c3db "w1").map (fun x => (x.totalSets, x.exerciseCount)) =
      some (0, 1) ∧ (1 : Nat) ≠ 0 :=
  ⟨rfl, by decide⟩

/-- C3 (amended): for every session id that resolves, `getWorkoutSummary`
returns duration = floor((completedAt − startedAt)/1000) when `completedAt`
is a non-zero timestamp and 0 otherwise, totalVolume = Σ (weight × reps)
over all logged sets, totalSets = the number of logged sets, and
exerciseCount = the number of distinct exercise ids among the session's
WorkoutExercise rows (logged or not); with zero logged sets the aggregates
are 0, 0 and the number of distinct exercise rows, never null or an
error. -/
theorem c3_summary_aggregates (db : DB) (workoutId : String)
    (w : WorkoutSessionRow)
    (hfind : db.workoutSessions.find? (fun s => s.id == workoutId) = some w) :
    Db.getWorkoutSummary db workoutId =
      some { id := w.id, name := w.name, startedAt := w.startedAt,
             completedAt := w.completedAt,
             duration :=
               match w.completedAt with
               | none => 0
               | some c => if c == 0 then 0 else Int.fdiv (c - w.startedAt) 1000,
             totalVolume := ((Db.sessionSets db workoutId).map
               (fun s => s.weight * (s.reps : Rat))).sum,
             totalSets := (Db.sessionSets db workoutId).length,
             exerciseCount := (((Db.sessionExercises db workoutId).map
               (fun we => we.exerciseId)).dedup).length } := by
  unfold Db.getWorkoutSummary
  rw [hfind]
  have h1 := summaryJoin_filterMap db workoutId
  have h2 := dedup_length_eq_of_mem_iff
    ((Db.summaryJoinRows db workoutId).map (fun p => p.1.exerciseId))
    ((Db.sessionExercises db workoutId).map (fun we => we.exerciseId))
    (summaryJoin_fst_mem db workoutId)
  simp only [h1, h2]

/-- C3 witness: the amended statement applied to the concrete session. -/
theorem c3_summary_aggregates_witness :
    Db.getWorkoutSummary c3db "w1" =
      some { id := sessionRowW1.id, name := sessionRowW1.name,
             startedAt := sessionRowW1.startedAt,
             completedAt := sessionRowW1.completedAt,
             duration :=
               match sessionRowW1.completedAt with
               | none => 0
               | some c =>
                 if c == 0 then 0 else Int.fdiv (c - sessionRowW1.startedAt) 1000,
             totalVolume := ((Db.sessionSets c3db "w1").map
               (fun s => s.weight * (s.reps : Rat))).sum,
             totalSets := (Db.sessionSets c3db "w1").length,
             exerciseCount := (((Db.sessionExercises c3db "w1").map
               (fun we => we.exerciseId)).dedup).length } :=
  c3_summary_aggregates c3db "w1" sessionRowW1 rfl

-- ==================== CLAIM C7 ====================

/-- C7 counterexample: the claim says `deleteRoutine(id)` succeeds for
every template and cascades to its exercises and sets while historical
sessions survive.  For the template `T1` of `c7db`, which one completed
session references, the DELETE aborts on the `workout_sessions`
foreign key (declared without ON DELETE CASCADE), so nothing at all is
deleted: the template and its exercise rows all remain. -/
theorem c7_delete_blocked_counterexample :
    Db.deleteRoutine c7db "T1" = (c7db, some "FOREIGN KEY constraint failed") ∧
    c7db.routineTemplates = [tmplRowT1] ∧
    c7db.workoutSessions = [sessionRowW1] :=
  ⟨rfl, rfl, rfl⟩

/-- C7 (amended): when no WorkoutSession references the template and no
WorkoutExercise back-references one of its RoutineExercises,
`deleteRoutine` succeeds, cascades to exactly the template's
RoutineExercise and RoutineExerciseSet rows, and leaves every
session-side table (and the exercise catalog) unchanged; when such a
reference exists the statement fails with a foreign-key error and no row
of any table changes — in both cases historical sessions remain present
and unchanged. -/
theorem c7_deleteRoutine_characterization (db : DB) (routineId : String) :
    ((¬ ∃ s ∈ db.workoutSessions, s.routineTemplateId = routineId) →
     (¬ ∃ we ∈ db.workoutExercises, ∃ re ∈ db.routineExercises,
        we.routineExerciseId = some re.id ∧ re.routineTemplateId = routineId) →
     ∃ db2, Db.deleteRoutine db routineId = (db2, none) ∧
       db2.workoutSessions = db.workoutSessions ∧
       db2.workoutExercises = db.workoutExercises ∧
       db2.workoutSets = db.workoutSets ∧
       db2.workoutPhotos = db.workoutPhotos ∧
       db2.exercises = db.exercises ∧
       db2.routineTemplates =
         db.routineTemplates.filter (fun t => !(t.id == routineId)) ∧
       db2.routineExercises =
         db.routineExercises.filter (fun re => !(re.routineTemplateId == routineId)) ∧
       (∀ s : RoutineExerciseSetRow, s ∈ db2.routineExerciseSets ↔
         s ∈ db.routineExerciseSets ∧
           ¬ ∃ re ∈ db.routineExercises, re.id = s.routineExerciseId ∧
             re.routineTemplateId = routineId)) ∧
    (((∃ s ∈ db.workoutSessions, s.routineTemplateId = routineId) ∨
      (∃ we ∈ db.workoutExercises, ∃ re ∈ db.routineExercises,
        we.routineExerciseId = some re.id ∧ re.routineTemplateId = routineId)) →
     Db.deleteRoutine db routineId = (db, some "FOREIGN KEY constraint failed")) := by
  have hc1 : db.workoutSessions.any (fun s => s.routineTemplateId == routineId) = true ↔
      ∃ s ∈ db.workoutSessions, s.routineTemplateId = routineId := by
    rw [List.any_eq_true]
    constructor
    · rintro ⟨s, hs, hb⟩; exact ⟨s, hs, beq_iff_eq.mp hb⟩
    · rintro ⟨s, hs, hb⟩; exact ⟨s, hs, beq_iff_eq.mpr hb⟩
  have hc2 : (db.workoutExercises.any (fun we =>
      match we.routineExerciseId with
      | none => false
      | some reid => ((db.routineExercises.filter
          (fun re => re.routineTemplateId == routineId)).map
            (fun re => re.id)).contains reid)) = true ↔
      ∃ we ∈ db.workoutExercises, ∃ re ∈ db.routineExercises,
        we.routineExerciseId = some re.id ∧ re.routineTemplateId = routineId := by
    rw [List.any_eq_true]
    constructor
    · rintro ⟨we, hwe, hb⟩
      cases hrei : we.routineExerciseId with
      | none => rw [hrei] at hb; exact absurd hb (by simp)
      | some reid =>
        rw [hrei] at hb
        have hmem : reid ∈ (db.routineExercises.filter
            (fun re => re.routineTemplateId == routineId)).map (fun re => re.id) :=
          List.elem_iff.mp hb
        obtain ⟨re, hre, hid⟩ := List.mem_map.mp hmem
        obtain ⟨hre2, hrtid⟩ := List.mem_filter.mp hre
        exact ⟨we, hwe, re, hre2, by rw [hrei, hid], beq_iff_eq.mp hrtid⟩
    · rintro ⟨we, hwe, re, hre, hrei, hrtid⟩
      refine ⟨we, hwe, ?_⟩
      rw [hrei]
      exact List.elem_iff.mpr (List.mem_map.mpr
        ⟨re, List.mem_filter.mpr ⟨hre, beq_iff_eq.mpr hrtid⟩, rfl⟩)
  constructor
  · intro h1 h2
    have hb1 : db.workoutSessions.any
        (fun s => s.routineTemplateId == routineId) = false := by
      cases hb : db.workoutSessions.any (fun s => s.routineTemplateId == routineId) with
      | false => rfl
      | true => exact absurd (hc1.mp hb) h1
    have hb2 : (db.workoutExercises.any (fun we =>
        match we.routineExerciseId with
        | none => false
        | some reid => ((db.routineExercises.filter
            (fun re => re.routineTemplateId == routineId)).map
              (fun re => re.id)).contains reid)) = false := by
      cases hb : db.workoutExercises.any (fun we =>
          match we.routineExerciseId with
          | none => false
          | some reid => ((db.routineExercises.filter
              (fun re => re.routineTemplateId == routineId)).map
                (fun re => re.id)).contains reid) with
      | false => rfl
      | true => exact absurd (hc2.mp hb) h2
    refine ⟨{ db with
        routineTemplates :=
          db.routineTemplates.filter (fun t => !(t.id == routineId)),
        routineExercises :=
          db.routineExercises.filter (fun re => !(re.routineTemplateId == routineId)),
        routineExerciseSets :=
          db.routineExerciseSets.filter (fun s =>
            !(((db.routineExercises.filter
              (fun re => re.routineTemplateId == routineId)).map
                (fun re => re.id)).contains s.routineExerciseId)),
        scheduledWorkouts :=
          db.scheduledWorkouts.filter (fun s => !(s.routineTemplateId == routineId)) },
      ?_, rfl, rfl, rfl, rfl, rfl, rfl, rfl, ?_⟩
    · simp only [Db.deleteRoutine]
      rw [hb1, hb2]
      simp
    · intro s
      rw [List.mem_filter]
      constructor
      · rintro ⟨hs, hpred⟩
        refine ⟨hs, ?_⟩
        rintro ⟨re, hre, hid, hrtid⟩
        rw [Bool.not_eq_eq_eq_not, Bool.not_true] at hpred
        have hmem : s.routineExerciseId ∈ (db.routineExercises.filter
            (fun re => re.routineTemplateId == routineId)).map (fun re => re.id) :=
          List.mem_map.mpr ⟨re, List.mem_filter.mpr ⟨hre, beq_iff_eq.mpr hrtid⟩, hid⟩
        exact Bool.false_ne_true (hpred.symm.trans (List.elem_iff.mpr hmem))
      · rintro ⟨hs, hnone⟩
        refine ⟨hs, ?_⟩
        rw [Bool.not_eq_eq_eq_not, Bool.not_true]
        cases hb : ((db.routineExercises.filter
            (fun re => re.routineTemplateId == routineId)).map
              (fun re => re.id)).contains s.routineExerciseId with
        | false => rfl
        | true =>
          obtain ⟨re, hre, hid⟩ := List.mem_map.mp (List.elem_iff.mp hb)
          obtain ⟨hre2, hrtid⟩ := List.mem_filter.mp hre
          exact absurd ⟨re, hre2, hid, beq_iff_eq.mp hrtid⟩ hnone
  · intro h
    simp only [Db.deleteRoutine]
    rcases h with h | h
    · rw [hc1.mpr h]
      simp
    · cases hb : db.workoutSessions.any (fun s => s.routineTemplateId == routineId) with
      | true => simp
      | false =>
        rw [hc2.mpr h]
        simp

/-- C7 witness: a template with one exercise and one set, referenced by
nothing, deletes with a full cascade and untouched session tables. -/
theorem c7_deleteRoutine_characterization_witness :
    ∃ db2, Db.deleteRoutine c1db "T9" = (db2, none) ∧
       db2.workoutSessions = c1db.workoutSessions ∧
       db2.workoutExercises = c1db.workoutExercises ∧
       db2.workoutSets = c1db.workoutSets ∧
       db2.workoutPhotos = c1db.workoutPhotos ∧
       db2.exercises = c1db.exercises ∧
       db2.routineTemplates =
         c1db.routineTemplates.filter (fun t => !(t.id == "T9")) ∧
       db2.routineExercises =
         c1db.routineExercises.filter (fun re => !(re.routineTemplateId == "T9")) ∧
       (∀ s : RoutineExerciseSetRow, s ∈ db2.routineExerciseSets ↔
         s ∈ c1db.routineExerciseSets ∧
           ¬ ∃ re ∈ c1db.routineExercises, re.id = s.routineExerciseId ∧
             re.routineTemplateId = "T9") :=
  (c7_deleteRoutine_characterization c1db "T9").1 (by decide) (by decide)

-- ==================== CLAIM C9 ====================

/-- C9 counterexample: the claim says a custom exercise referenced by no
RoutineExercise deletes successfully.  The custom exercise `e1` of `c9db`
is referenced by no RoutineExercise, but one WorkoutExercise of a
historical session references it; the application guard only checks
`routine_exercises`, and the final DELETE then fails on the
`workout_exercises.exercise_id` foreign key, leaving the row in place. -/
theorem c9_workout_reference_counterexample :
    customCurl.isCustom = true ∧
    c9db.routineExercises = [] ∧
    Db.deleteCustomExercise c9db "e1" =
      (c9db, some "FOREIGN KEY constraint failed") :=
  ⟨rfl, rfl, rfl⟩

/-- C9 (amended): `deleteCustomExercise` on a missing or non-custom
exercise fails with the invariant-violation message and changes nothing; on
a custom exercise referenced by some RoutineExercise it fails with the
in-use message and changes nothing; on a custom exercise referenced by no
RoutineExercise and no WorkoutExercise it deletes exactly that exercise
row.  (A custom exercise referenced only by a WorkoutExercise slips past
the guard and the DELETE fails on the foreign key instead.) -/
theorem c9_guard_characterization (db : DB) (exerciseId : String) :
    (db.exercises.find? (fun e => e.id == exerciseId) = none →
      Db.deleteCustomExercise db exerciseId =
        (db, some "Cannot delete non-custom exercise")) ∧
    (∀ ex, db.exercises.find? (fun e => e.id == exerciseId) = some ex →
      ex.isCustom = false →
      Db.deleteCustomExercise db exerciseId =
        (db, some "Cannot delete non-custom exercise")) ∧
    (∀ ex, db.exercises.find? (fun e => e.id == exerciseId) = some ex →
      ex.isCustom = true →
      (∃ re ∈ db.routineExercises, re.exerciseId = exerciseId) →
      Db.deleteCustomExercise db exerciseId =
        (db, some "Cannot delete exercise that is used in a routine")) ∧
    (∀ ex, db.exercises.find? (fun e => e.id == exerciseId) = some ex →
      ex.isCustom = true →
      (¬ ∃ re ∈ db.routineExercises, re.exerciseId = exerciseId) →
      (¬ ∃ we ∈ db.workoutExercises, we.exerciseId = exerciseId) →
      Db.deleteCustomExercise db exerciseId =
        ({ db with exercises :=
            db.exercises.filter (fun e => !(e.id == exerciseId)) }, none)) := by
  have hlen : 0 < (db.routineExercises.filter
      (fun re => re.exerciseId == exerciseId)).length ↔
      ∃ re ∈ db.routineExercises, re.exerciseId = exerciseId := by
    rw [List.length_pos_iff_exists_mem]
    constructor
    · rintro ⟨re, hre⟩
      obtain ⟨h1, h2⟩ := List.mem_filter.mp hre
      exact ⟨re, h1, beq_iff_eq.mp h2⟩
    · rintro ⟨re, h1, h2⟩
      exact ⟨re, List.mem_filter.mpr ⟨h1, beq_iff_eq.mpr h2⟩⟩
  have hany : db.workoutExercises.any (fun we => we.exerciseId == exerciseId) = true ↔
      ∃ we ∈ db.workoutExercises, we.exerciseId = exerciseId := by
    rw [List.any_eq_true]
    constructor
    · rintro ⟨we, h1, h2⟩; exact ⟨we, h1, beq_iff_eq.mp h2⟩
    · rintro ⟨we, h1, h2⟩; exact ⟨we, h1, beq_iff_eq.mpr h2⟩
  refine ⟨?_, ?_, ?_, ?_⟩
  · intro hnone
    unfold Db.deleteCustomExercise
    rw [hnone]
  · intro ex hfind hcust
    unfold Db.deleteCustomExercise
    rw [hfind]
    simp [hcust]
  · intro ex hfind hcust href
    unfold Db.deleteCustomExercise
    rw [hfind]
    simp only [hcust, Bool.not_true, Bool.false_eq_true, if_false]
    rw [if_pos (hlen.mpr href)]
  · intro ex hfind hcust hnoref hnowe
    unfold Db.deleteCustomExercise
    rw [hfind]
    simp only [hcust, Bool.not_true, Bool.false_eq_true, if_false]
    rw [if_neg (fun h => hnoref (hlen.mp h))]
    rw [if_neg (fun h => hnowe (hany.mp h))]

/-- C9 witness: the success case applied to an unreferenced custom
exercise. -/
theorem c9_guard_characterization_witness :
    Db.deleteCustomExercise c9freeDb "e1" =
      ({ c9freeDb with exercises :=
          c9freeDb.exercises.filter (fun e => !(e.id == "e1")) }, none) :=
  (c9_guard_characterization c9freeDb "e1").2.2.2 customCurl (by decide) rfl
    (by decide) (by decide)

-- ==================== INSERT-RUNNER LEMMAS ====================

theorem runInserts_append (db : DB) (l1 l2 : List DbInsert) :
    runInserts db (l1 ++ l2) =
      match runInserts db l1 with
      | (db1, none) => runInserts db1 l2
      | (db1, some e) => (db1, some e) := by
  induction l1 generalizing db with
  | nil => rfl
  | cons s rest ih =>
    simp only [List.cons_append, runInserts]
    cases applyInsert db s with
    | ok db1 => exact ih db1
    | error e => rfl

theorem runInserts_append_ok (db dbm : DB) (l1 l2 : List DbInsert)
    (h : runInserts db l1 = (dbm, none)) :
    runInserts db (l1 ++ l2) = runInserts dbm l2 := by
  rw [runInserts_append, h]

theorem runInserts_cons_ok (db db1 : DB) (s : DbInsert) (rest : List DbInsert)
    (h : applyInsert db s = .ok db1) :
    runInserts db (s :: rest) = runInserts db1 rest := by
  simp only [runInserts, h]

theorem bool_ne_true {b : Bool} (h : b = false) : ¬ b = true := by
  rw [h]
  exact Bool.false_ne_true

/-- Turn id-freshness into the falsity of a primary-key probe. -/
theorem any_beq_eq_false {α : Type} (key : α → String) (l : List α) (a : String)
    (h : ∀ x ∈ l, key x ≠ a) : l.any (fun x => key x == a) = false := by
  rw [List.any_eq_false]
  intro x hx hbeq
  exact h x hx (beq_iff_eq.mp hbeq)

/-- The inner set loop of `createRoutine` succeeds and appends exactly the
built rows, given fresh, injective set ids and the parent row present. -/
theorem runSetStmts_ok (reIdStr : String) (setIdF : Nat → String)
    (hinj : ∀ k1 k2, setIdF k1 = setIdF k2 → k1 = k2) :
    ∀ (l : List CreateRoutineExerciseSetInput) (k : Nat) (db : DB),
    db.routineExercises.any (fun x => x.id == reIdStr) = true →
    (∀ k2, k ≤ k2 → ∀ s ∈ db.routineExerciseSets, s.id ≠ setIdF k2) →
    runInserts db (Db.setInsertStmts reIdStr setIdF k l) =
      ({ db with routineExerciseSets :=
          db.routineExerciseSets ++ Db.buildSetsFor reIdStr setIdF k l }, none)
  | [], k, db, _, _ => by
    simp [Db.setInsertStmts, Db.buildSetsFor, runInserts]
  | s :: rest, k, db, hre, hfresh => by
    have hpk : db.routineExerciseSets.any
        (fun x => x.id == setIdF k) = false :=
      any_beq_eq_false (fun x => x.id) _ _
        (fun x hx => hfresh k le_rfl x hx)
    have hnotre : (!(db.routineExercises.any (fun x => x.id == reIdStr))) = false := by
      rw [hre]
      rfl
    have happly : applyInsert db
        (.rset (Db.mkRoutineExerciseSetRow reIdStr (setIdF k) s)) =
        .ok { db with routineExerciseSets := db.routineExerciseSets ++
          [Db.mkRoutineExerciseSetRow reIdStr (setIdF k) s] } := by
      simp only [applyInsert, Db.mkRoutineExerciseSetRow]
      rw [if_neg (bool_ne_true hpk), if_neg (bool_ne_true hnotre)]
    rw [Db.setInsertStmts, runInserts_cons_ok db _ _ _ happly]
    rw [runSetStmts_ok reIdStr setIdF hinj rest (k + 1)
      { db with routineExerciseSets := db.routineExerciseSets ++
        [Db.mkRoutineExerciseSetRow reIdStr (setIdF k) s] }
      hre
      (by
        intro k2 hk2 x hx
        rcases List.mem_append.mp hx with hold | hnew
        · exact hfresh k2 (le_trans (Nat.le_succ k) hk2) x hold
        · rcases List.mem_singleton.mp hnew with h1
          rw [h1]
          intro hid
          have := hinj k k2 hid
          omega)]
    simp [Db.buildSetsFor, List.append_assoc]

/-- Membership in the built rows of one exercise's set group. -/
theorem mem_buildSetsFor (reIdStr : String) (setIdF : Nat → String) :
    ∀ (l : List CreateRoutineExerciseSetInput) (k : Nat) (s : RoutineExerciseSetRow),
    s ∈ Db.buildSetsFor reIdStr setIdF k l →
    s.routineExerciseId = reIdStr ∧ ∃ k2, k ≤ k2 ∧ s.id = setIdF k2
  | [], _, _, h => absurd h (List.not_mem_nil _)
  | x :: rest, k, s, h => by
    rcases List.mem_cons.mp h with h1 | h2
    · rw [h1]
      exact ⟨rfl, k, le_rfl, rfl⟩
    · obtain ⟨hid, k2, hk2, hs⟩ := mem_buildSetsFor reIdStr setIdF rest (k + 1) s h2
      exact ⟨hid, k2, le_trans (Nat.le_succ k) hk2, hs⟩

/-- Membership in all built set rows. -/
theorem mem_buildAllSets (reId : Nat → String) (setId : Nat → Nat → String) :
    ∀ (l : List CreateRoutineExerciseInput) (j : Nat) (s : RoutineExerciseSetRow),
    s ∈ Db.buildAllSets reId setId j l →
    ∃ i, j ≤ i ∧ s.routineExerciseId = reId i ∧ ∃ k2, s.id = setId i k2
  | [], _, _, h => absurd h (List.not_mem_nil _)
  | e :: rest, j, s, h => by
    rcases List.mem_append.mp h with h1 | h2
    · obtain ⟨hid, k2, _, hs⟩ := mem_buildSetsFor (reId j) (setId j) e.sets 0 s h1
      exact ⟨j, le_rfl, hid, k2, hs⟩
    · obtain ⟨i, hi, hid, k2, hs⟩ := mem_buildAllSets reId setId rest (j + 1) s h2
      exact ⟨i, le_trans (Nat.le_succ j) hi, hid, k2, hs⟩

/-- Membership in the built routine-exercise rows. -/
theorem mem_buildREs (routineId : String) (reId : Nat → String) :
    ∀ (l : List CreateRoutineExerciseInput) (j : Nat) (re : RoutineExerciseRow),
    re ∈ Db.buildREs routineId reId j l →
    ∃ i e, j ≤ i ∧ e ∈ l ∧ re = Db.mkRoutineExerciseRow routineId (reId i) e
  | [], _, _, h => absurd h (List.not_mem_nil _)
  | e :: rest, j, re, h => by
    rcases List.mem_cons.mp h with h1 | h2
    · exact ⟨j, e, le_rfl, List.mem_cons_self e rest, h1⟩
    · obtain ⟨i, e2, hi, he2, hre⟩ := mem_buildREs routineId reId rest (j + 1) re h2
      exact ⟨i, e2, le_trans (Nat.le_succ j) hi, List.mem_cons_of_mem e he2, hre⟩

/-- The exercise loop of `createRoutine` succeeds and appends exactly the
built exercise and set rows. -/
theorem runExStmts_ok (routineId : String) (reId : Nat → String)
    (setId : Nat → Nat → String)
    (hreInj : ∀ i1 i2, reId i1 = reId i2 → i1 = i2)
    (hsetInj : ∀ i1 k1 i2 k2, setId i1 k1 = setId i2 k2 → i1 = i2 ∧ k1 = k2) :
    ∀ (l : List CreateRoutineExerciseInput) (j : Nat) (db : DB),
    db.routineTemplates.any (fun t => t.id == routineId) = true →
    (∀ e ∈ l, db.exercises.any (fun x => x.id == e.exerciseId) = true) →
    (∀ i, j ≤ i → ∀ re ∈ db.routineExercises, re.id ≠ reId i) →
    (∀ i k, j ≤ i → ∀ s ∈ db.routineExerciseSets, s.id ≠ setId i k) →
    runInserts db (Db.exerciseInsertStmts routineId reId setId j l) =
      ({ db with
          routineExercises := db.routineExercises ++ Db.buildREs routineId reId j l,
          routineExerciseSets :=
            db.routineExerciseSets ++ Db.buildAllSets reId setId j l }, none)
  | [], j, db, _, _, _, _ => by
    simp [Db.exerciseInsertStmts, Db.buildREs, Db.buildAllSets, runInserts]
  | e :: rest, j, db, htmpl, hcat, hreFresh, hsetFresh => by
    have hpk : db.routineExercises.any
        (fun x => x.id == reId j) = false :=
      any_beq_eq_false (fun x => x.id) _ _
        (fun x hx => hreFresh j le_rfl x hx)
    have hnottmpl : (!(db.routineTemplates.any
        (fun t => t.id == routineId))) = false := by
      rw [htmpl]
      rfl
    have hnotcat : (!(db.exercises.any
        (fun x => x.id == e.exerciseId))) = false := by
      rw [hcat e (List.mem_cons_self e rest)]
      rfl
    have happly : applyInsert db (.rex (Db.mkRoutineExerciseRow routineId (reId j) e)) =
        .ok { db with routineExercises := db.routineExercises ++
          [Db.mkRoutineExerciseRow routineId (reId j) e] } := by
      simp only [applyInsert, Db.mkRoutineExerciseRow]
      rw [if_neg (bool_ne_true hpk), if_neg (bool_ne_true hnottmpl),
        if_neg (bool_ne_true hnotcat)]
    rw [Db.exerciseInsertStmts, runInserts_cons_ok db _ _ _ happly,
      runInserts_append_ok _ _ _ _
        (runSetStmts_ok (reId j) (setId j)
          (fun k1 k2 h => (hsetInj j k1 j k2 h).2) e.sets 0
          { db with routineExercises := db.routineExercises ++
            [Db.mkRoutineExerciseRow routineId (reId j) e] }
          (by simp [List.any_append, Db.mkRoutineExerciseRow])
          (fun k2 _ s hs => hsetFresh j k2 le_rfl s hs))]
    rw [runExStmts_ok routineId reId setId hreInj hsetInj rest (j + 1)
      { db with
          routineExercises := db.routineExercises ++
            [Db.mkRoutineExerciseRow routineId (reId j) e],
          routineExerciseSets := db.routineExerciseSets ++
            Db.buildSetsFor (reId j) (setId j) 0 e.sets }
      htmpl
      (fun e2 he2 => hcat e2 (List.mem_cons_of_mem e he2))
      (by
        intro i hi re hre
        rcases List.mem_append.mp hre with hold | hnew
        · exact hreFresh i (le_trans (Nat.le_succ j) hi) re hold
        · rcases List.mem_singleton.mp hnew with h1
          rw [h1]
          intro hid
          have := hreInj j i hid
          omega)
      (by
        intro i k hi s hs
        rcases List.mem_append.mp hs with hold | hnew
        · exact hsetFresh i k (le_trans (Nat.le_succ j) hi) s hold
        · obtain ⟨_, k2, _, hid⟩ := mem_buildSetsFor (reId j) (setId j) e.sets 0 s hnew
          rw [hid]
          intro heq
          have := hsetInj j k2 i k heq
          omega)]
    simp [Db.buildREs, Db.buildAllSets, List.append_assoc]

/-- `createRoutine` succeeds on fresh ids and resolvable exercise ids, and
appends exactly the template row, the built exercise rows and the built
set rows, touching no other table. -/
theorem createRoutine_ok (db : DB) (now : Int) (routineId : String)
    (reId : Nat → String) (setId : Nat → Nat → String)
    (input : CreateRoutineInput)
    (hcat : ∀ e ∈ input.exercises,
      db.exercises.any (fun x => x.id == e.exerciseId) = true)
    (htFresh : ∀ t ∈ db.routineTemplates, t.id ≠ routineId)
    (hreFresh : ∀ i, ∀ re ∈ db.routineExercises, re.id ≠ reId i)
    (hreInj : ∀ i1 i2, reId i1 = reId i2 → i1 = i2)
    (hsetFresh : ∀ i k, ∀ s ∈ db.routineExerciseSets, s.id ≠ setId i k)
    (hsetInj : ∀ i1 k1 i2 k2, setId i1 k1 = setId i2 k2 → i1 = i2 ∧ k1 = k2) :
    Db.createRoutine db now routineId reId setId input =
      ({ db with
          routineTemplates := db.routineTemplates ++
            [{ id := routineId, name := input.name, createdAt := now,
               updatedAt := now }],
          routineExercises :=
            db.routineExercises ++ Db.buildREs routineId reId 0 input.exercises,
          routineExerciseSets :=
            db.routineExerciseSets ++
              Db.buildAllSets reId setId 0 input.exercises }, none) := by
  have hpk : db.routineTemplates.any (fun t => t.id == routineId) = false :=
    any_beq_eq_false (fun t : RoutineTemplateRow => t.id) _ _ htFresh
  have happly : applyInsert db
      (.tmpl
        { id := routineId, name := input.name, createdAt := now,
          updatedAt := now }) =
      .ok
        { db with routineTemplates := db.routineTemplates ++
            [{ id := routineId, name := input.name, createdAt := now,
               updatedAt := now }] } := by
    simp only [applyInsert]
    rw [if_neg (bool_ne_true hpk)]
  rw [Db.createRoutine, Db.createRoutineStmts, runInserts_cons_ok db _ _ _ happly]
  rw [runExStmts_ok routineId reId setId hreInj hsetInj input.exercises 0
    { db with routineTemplates := db.routineTemplates ++
        [{ id := routineId, name := input.name, createdAt := now,
           updatedAt := now }] }
    (by simp [List.any_append])
    hcat
    (fun i _ re hre => hreFresh i re hre)
    (fun i k _ s hs => hsetFresh i k s hs)]

-- ==================== ROUND-TRIP LEMMAS ====================

theorem buildSetsFor_proj (reIdStr : String) (setIdF : Nat → String) :
    ∀ (k : Nat) (l : List CreateRoutineExerciseSetInput),
    (Db.buildSetsFor reIdStr setIdF k l).map Db.projSet = l
  | _, [] => rfl
  | k, s :: rest => by
    simp only [Db.buildSetsFor, List.map_cons]
    rw [buildSetsFor_proj reIdStr setIdF (k + 1) rest]
    rfl

theorem buildSetsFor_setNumbers (reIdStr : String) (setIdF : Nat → String) :
    ∀ (k : Nat) (l : List CreateRoutineExerciseSetInput),
    (Db.buildSetsFor reIdStr setIdF k l).map (fun s => s.setNumber) =
      l.map (fun s => s.setNumber)
  | _, [] => rfl
  | k, s :: rest => by
    simp only [Db.buildSetsFor, List.map_cons]
    rw [buildSetsFor_setNumbers reIdStr setIdF (k + 1) rest]
    rfl

theorem buildREs_orders (routineId : String) (reId : Nat → String) :
    ∀ (l : List CreateRoutineExerciseInput) (j : Nat),
    (Db.buildREs routineId reId j l).map (fun re => re.sortOrder) =
      l.map (fun e => e.order)
  | [], _ => rfl
  | e :: rest, j => by
    simp only [Db.buildREs, List.map_cons]
    rw [buildREs_orders routineId reId rest (j + 1)]
    rfl

theorem filter_buildSetsFor_self (reIdStr : String) (setIdF : Nat → String)
    (k : Nat) (l : List CreateRoutineExerciseSetInput) :
    (Db.buildSetsFor reIdStr setIdF k l).filter
      (fun s => s.routineExerciseId == reIdStr) =
      Db.buildSetsFor reIdStr setIdF k l :=
  filter_eq_self_of_true _ _ (fun s hs => by
    rw [(mem_buildSetsFor reIdStr setIdF l k s hs).1]
    exact beq_self_eq_true reIdStr)

/-- Set groups of other exercises never match a different exercise's id. -/
theorem filter_buildAllSets_eq (reId : Nat → String) (setId : Nat → Nat → String)
    (hreInj : ∀ i1 i2, reId i1 = reId i2 → i1 = i2) :
    ∀ (l : List CreateRoutineExerciseInput) (j0 pos : Nat)
      (e : CreateRoutineExerciseInput),
    l[pos]? = some e →
    (Db.buildAllSets reId setId j0 l).filter
      (fun s => s.routineExerciseId == reId (j0 + pos)) =
      Db.buildSetsFor (reId (j0 + pos)) (setId (j0 + pos)) 0 e.sets
  | [], _, pos, _, h => by simp at h
  | e0 :: rest, j0, 0, e, h => by
    have he : e0 = e := by simpa using h
    subst he
    simp only [Db.buildAllSets, List.filter_append, Nat.add_zero]
    rw [filter_buildSetsFor_self]
    rw [filter_eq_nil_of_false _ _ (fun s hs => by
      obtain ⟨i, hi, hsid, _⟩ := mem_buildAllSets reId setId rest (j0 + 1) s hs
      rw [hsid]
      exact beq_eq_false_iff_ne.mpr (fun heq => by
        have := hreInj i j0 heq
        omega))]
    rw [List.append_nil]
  | e0 :: rest, j0, pos + 1, e, h => by
    simp only [Db.buildAllSets, List.filter_append]
    rw [filter_eq_nil_of_false _ _ (fun s hs => by
      have hsid := (mem_buildSetsFor (reId j0) (setId j0) e0.sets 0 s hs).1
      rw [hsid]
      exact beq_eq_false_iff_ne.mpr (fun heq => by
        have := hreInj j0 (j0 + (pos + 1)) heq
        omega))]
    have hidx : j0 + (pos + 1) = (j0 + 1) + pos := by omega
    rw [hidx]
    rw [filter_buildAllSets_eq reId setId hreInj rest (j0 + 1) pos e (by simpa using h)]
    rw [List.nil_append]

/-- Pushing `projExRow` through the built exercise rows recovers the input
exercises with their sets sorted. -/
theorem map_projExRow_buildREs (db1 : DB) (routineId : String)
    (reId : Nat → String) (setId : Nat → Nat → String) :
    ∀ (l : List CreateRoutineExerciseInput) (j : Nat),
    (∀ pos e, l[pos]? = some e →
      db1.routineExerciseSets.filter
        (fun s => s.routineExerciseId == reId (j + pos)) =
        Db.buildSetsFor (reId (j + pos)) (setId (j + pos)) 0 e.sets) →
    (∀ e ∈ l, (e.sets.map (fun s => s.setNumber)).Nodup) →
    (Db.buildREs routineId reId j l).map (Db.projExRow db1) =
      l.map (fun e => { e with sets := sortByKey (fun s => s.setNumber) e.sets })
  | [], _, _, _ => rfl
  | e :: rest, j, hset, hnodup => by
    simp only [Db.buildREs, List.map_cons]
    have hfilter := hset 0 e (by simp)
    rw [Nat.add_zero] at hfilter
    have hnums : (Db.buildSetsFor (reId j) (setId j) 0 e.sets).map
        (fun s => s.setNumber) = e.sets.map (fun s => s.setNumber) :=
      buildSetsFor_setNumbers (reId j) (setId j) 0 e.sets
    have hhead : Db.projExRow db1 (Db.mkRoutineExerciseRow routineId (reId j) e) =
        { e with sets := sortByKey (fun s => s.setNumber) e.sets } := by
      unfold Db.projExRow Db.mkRoutineExerciseRow
      rw [hfilter]
      rw [sortByKey_map (fun s => s.setNumber) (fun s => s.setNumber) Db.projSet
        (fun a => rfl) _ (by rw [hnums]; exact hnodup e (List.mem_cons_self e rest))]
      rw [buildSetsFor_proj]
    rw [hhead]
    rw [map_projExRow_buildREs db1 routineId reId setId rest (j + 1)
      (fun pos e2 h2 => by
        have := hset (pos + 1) e2 (by simpa using h2)
        have hidx : j + (pos + 1) = (j + 1) + pos := by omega
        rw [hidx] at this
        exact this)
      (fun e2 he2 => hnodup e2 (List.mem_cons_of_mem e he2))]

theorem filter_buildREs_self (routineId : String) (reId : Nat → String)
    (l : List CreateRoutineExerciseInput) (j : Nat) :
    (Db.buildREs routineId reId j l).filter
      (fun re => re.routineTemplateId == routineId) =
      Db.buildREs routineId reId j l :=
  filter_eq_self_of_true _ _ (fun re hre => by
    obtain ⟨i, e, _, _, h⟩ := mem_buildREs routineId reId l j re hre
    rw [h]
    exact beq_self_eq_true routineId)

/-- In a catalog with pairwise-distinct ids, a resolvable id filters to a
singleton. -/
theorem filter_singleton_of_nodup {α : Type} (key : α → String) :
    ∀ (l : List α) (a : String), (l.map key).Nodup →
    l.any (fun x => key x == a) = true →
    ∃ x, l.filter (fun x => key x == a) = [x] ∧ key x = a
  | [], a, _, h => by simp at h
  | b :: rest, a, hnodup, hany => by
    have hnodup2 : (rest.map key).Nodup := by
      rw [List.map_cons] at hnodup
      exact hnodup.of_cons
    cases hb : (key b == a) with
    | true =>
      have hkb : key b = a := beq_iff_eq.mp hb
      have hrest : rest.filter (fun x => key x == a) = [] := by
        apply filter_eq_nil_of_false
        intro x hx
        cases hxb : (key x == a) with
        | false => rfl
        | true =>
          exfalso
          have hkx : key x = a := beq_iff_eq.mp hxb
          rw [List.map_cons] at hnodup
          exact (List.nodup_cons.mp hnodup).1
            (by rw [hkb, ← hkx]; exact List.mem_map_of_mem key hx)
      refine ⟨b, ?_, hkb⟩
      rw [@List.filter_cons_of_pos _ (fun x => key x == a) b rest hb, hrest]
    | false =>
      have hany2 : rest.any (fun x => key x == a) = true := by
        rw [List.any_cons, hb] at hany
        simpa using hany
      obtain ⟨x, hx1, hx2⟩ := filter_singleton_of_nodup key rest a hnodup2 hany2
      exact ⟨x, by rw [List.filter_cons_of_neg (by rw [hb]; exact Bool.false_ne_true),
        hx1], hx2⟩

/-- Left components of the template's inner join, when every exercise id
resolves to exactly one catalog row. -/
theorem flatMap_singleton_fst (exs : List ExerciseRow) :
    ∀ (L : List RoutineExerciseRow),
    (∀ re ∈ L, ∃ x, exs.filter (fun e => e.id == re.exerciseId) = [x]) →
    (L.flatMap (fun re => (exs.filter (fun e => e.id == re.exerciseId)).map
      (fun e => (re, e)))).map Prod.fst = L
  | [], _ => rfl
  | re :: rest, h => by
    simp only [List.flatMap_cons, List.map_append]
    obtain ⟨x, hx⟩ := h re (List.mem_cons_self re rest)
    rw [hx]
    rw [flatMap_singleton_fst exs rest (fun r hr => h r (List.mem_cons_of_mem re hr))]
    rfl

-- ==================== CLAIM C5 ====================

/-- Core of the round-trip: on the database left by a successful
`createRoutine`, `getRoutineWithExercises` returns the aggregate whose
projection onto the input fields is exactly the order-sorted input. -/
theorem c5_aux (db : DB) (now : Int) (routineId : String)
    (reId : Nat → String) (setId : Nat → Nat → String)
    (input : CreateRoutineInput)
    (hcat : ∀ e ∈ input.exercises,
      db.exercises.any (fun x => x.id == e.exerciseId) = true)
    (hcatNodup : (db.exercises.map (fun e => e.id)).Nodup)
    (htFresh : ∀ t ∈ db.routineTemplates, t.id ≠ routineId)
    (hreNoTmpl : ∀ re ∈ db.routineExercises, re.routineTemplateId ≠ routineId)
    (hreInj : ∀ i1 i2, reId i1 = reId i2 → i1 = i2)
    (hsetGroupFresh : ∀ s ∈ db.routineExerciseSets, ∀ i,
      s.routineExerciseId ≠ reId i)
    (hord : (input.exercises.map (fun e => e.order)).Nodup)
    (hsetNodup : ∀ e ∈ input.exercises,
      (e.sets.map (fun s => s.setNumber)).Nodup) :
    Db.getRoutineWithExercises
      { db with
        routineTemplates := db.routineTemplates ++
          [{ id := routineId, name := input.name, createdAt := now,
             updatedAt := now }],
        routineExercises :=
          db.routineExercises ++ Db.buildREs routineId reId 0 input.exercises,
        routineExerciseSets :=
          db.routineExerciseSets ++
            Db.buildAllSets reId setId 0 input.exercises } routineId =
      some { id := routineId, name := input.name, createdAt := now,
             updatedAt := now,
             exercises := (sortByKey (fun p => p.1.sortOrder)
               ((Db.buildREs routineId reId 0 input.exercises).flatMap
                 (fun re => (db.exercises.filter
                   (fun e => e.id == re.exerciseId)).map (fun e => (re, e))))).map
               (Db.attachDetails
                 { db with
                   routineTemplates := db.routineTemplates ++
                     [{ id := routineId, name := input.name, createdAt := now,
                        updatedAt := now }],
                   routineExercises := db.routineExercises ++
                     Db.buildREs routineId reId 0 input.exercises,
                   routineExerciseSets := db.routineExerciseSets ++
                     Db.buildAllSets reId setId 0 input.exercises }) } ∧
    ((sortByKey (fun p => p.1.sortOrder)
        ((Db.buildREs routineId reId 0 input.exercises).flatMap
          (fun re => (db.exercises.filter
            (fun e => e.id == re.exerciseId)).map (fun e => (re, e))))).map
      (Db.attachDetails
        { db with
          routineTemplates := db.routineTemplates ++
            [{ id := routineId, name := input.name, createdAt := now,
               updatedAt := now }],
          routineExercises := db.routineExercises ++
            Db.buildREs routineId reId 0 input.exercises,
          routineExerciseSets := db.routineExerciseSets ++
            Db.buildAllSets reId setId 0 input.exercises })).map Db.projEx =
      Db.normInput input.exercises := by
  have hjoin : Db.routineJoinRows
      { db with
        routineTemplates := db.routineTemplates ++
          [{ id := routineId, name := input.name, createdAt := now,
             updatedAt := now }],
        routineExercises :=
          db.routineExercises ++ Db.buildREs routineId reId 0 input.exercises,
        routineExerciseSets :=
          db.routineExerciseSets ++
            Db.buildAllSets reId setId 0 input.exercises } routineId =
      (Db.buildREs routineId reId 0 input.exercises).flatMap
        (fun re => (db.exercises.filter (fun e => e.id == re.exerciseId)).map
          (fun e => (re, e))) := by
    unfold Db.routineJoinRows
    show ((db.routineExercises ++ Db.buildREs routineId reId 0 input.exercises).filter
        (fun re => re.routineTemplateId == routineId)).flatMap
        (fun re => (db.exercises.filter (fun e => e.id == re.exerciseId)).map
          (fun e => (re, e))) = _
    rw [List.filter_append]
    rw [filter_eq_nil_of_false _ _
      (fun re hre => beq_eq_false_iff_ne.mpr (hreNoTmpl re hre))]
    rw [filter_buildREs_self]
    rw [List.nil_append]
  have hsingleton : ∀ re ∈ Db.buildREs routineId reId 0 input.exercises,
      ∃ x, db.exercises.filter (fun e2 => e2.id == re.exerciseId) = [x] := by
    intro re hre
    obtain ⟨i, e, _, he, hmk⟩ :=
      mem_buildREs routineId reId input.exercises 0 re hre
    obtain ⟨x, hx1, _⟩ := filter_singleton_of_nodup
      (fun e2 : ExerciseRow => e2.id) db.exercises e.exerciseId hcatNodup
      (hcat e he)
    exact ⟨x, by rw [hmk]; exact hx1⟩
  have hfst : ((Db.buildREs routineId reId 0 input.exercises).flatMap
      (fun re => (db.exercises.filter (fun e => e.id == re.exerciseId)).map
        (fun e => (re, e)))).map Prod.fst =
      Db.buildREs routineId reId 0 input.exercises :=
    flatMap_singleton_fst db.exercises _ hsingleton
  have hordersREs : ((Db.buildREs routineId reId 0 input.exercises).map
      (fun re => re.sortOrder)).Nodup := by
    rw [buildREs_orders]
    exact hord
  have hordJ : (((Db.buildREs routineId reId 0 input.exercises).flatMap
      (fun re => (db.exercises.filter (fun e => e.id == re.exerciseId)).map
        (fun e => (re, e)))).map (fun p => p.1.sortOrder)).Nodup := by
    have hmm : ((Db.buildREs routineId reId 0 input.exercises).flatMap
        (fun re => (db.exercises.filter (fun e => e.id == re.exerciseId)).map
          (fun e => (re, e)))).map (fun p => p.1.sortOrder) =
        (((Db.buildREs routineId reId 0 input.exercises).flatMap
          (fun re => (db.exercises.filter (fun e => e.id == re.exerciseId)).map
            (fun e => (re, e)))).map Prod.fst).map (fun re => re.sortOrder) := by
      rw [List.map_map]
      rfl
    rw [hmm, hfst]
    exact hordersREs
  have hsetfilter : ∀ pos e, input.exercises[pos]? = some e →
      ({ db with
        routineTemplates := db.routineTemplates ++
          [{ id := routineId, name := input.name, createdAt := now,
             updatedAt := now }],
        routineExercises :=
          db.routineExercises ++ Db.buildREs routineId reId 0 input.exercises,
        routineExerciseSets :=
          db.routineExerciseSets ++
            Db.buildAllSets reId setId 0 input.exercises } : DB).routineExerciseSets.filter
        (fun s => s.routineExerciseId == reId (0 + pos)) =
      Db.buildSetsFor (reId (0 + pos)) (setId (0 + pos)) 0 e.sets := by
    intro pos e h
    show ((db.routineExerciseSets ++
        Db.buildAllSets reId setId 0 input.exercises).filter
        (fun s => s.routineExerciseId == reId (0 + pos))) = _
    rw [List.filter_append]
    rw [filter_eq_nil_of_false _ _
      (fun s hs => beq_eq_false_iff_ne.mpr (hsetGroupFresh s hs (0 + pos)))]
    rw [List.nil_append]
    exact filter_buildAllSets_eq reId setId hreInj input.exercises 0 pos e h
  have hmapmain : ((sortByKey (fun p => p.1.sortOrder)
      ((Db.buildREs routineId reId 0 input.exercises).flatMap
        (fun re => (db.exercises.filter
          (fun e => e.id == re.exerciseId)).map (fun e => (re, e))))).map
      (Db.attachDetails
        { db with
          routineTemplates := db.routineTemplates ++
            [{ id := routineId, name := input.name, createdAt := now,
               updatedAt := now }],
          routineExercises := db.routineExercises ++
            Db.buildREs routineId reId 0 input.exercises,
          routineExerciseSets := db.routineExerciseSets ++
            Db.buildAllSets reId setId 0 input.exercises })).map Db.projEx =
      Db.normInput input.exercises := by
    rw [List.map_map]
    have hcomp : (Db.projEx ∘ Db.attachDetails
        { db with
          routineTemplates := db.routineTemplates ++
            [{ id := routineId, name := input.name, createdAt := now,
               updatedAt := now }],
          routineExercises := db.routineExercises ++
            Db.buildREs routineId reId 0 input.exercises,
          routineExerciseSets := db.routineExerciseSets ++
            Db.buildAllSets reId setId 0 input.exercises }) =
        (fun p : RoutineExerciseRow × ExerciseRow => Db.projExRow
          { db with
            routineTemplates := db.routineTemplates ++
              [{ id := routineId, name := input.name, createdAt := now,
                 updatedAt := now }],
            routineExercises := db.routineExercises ++
              Db.buildREs routineId reId 0 input.exercises,
            routineExerciseSets := db.routineExerciseSets ++
              Db.buildAllSets reId setId 0 input.exercises } p.1) := rfl
    rw [hcomp]
    have hsplit : ((sortByKey (fun p => p.1.sortOrder)
        ((Db.buildREs routineId reId 0 input.exercises).flatMap
          (fun re => (db.exercises.filter
            (fun e => e.id == re.exerciseId)).map (fun e => (re, e))))).map
        (fun p : RoutineExerciseRow × ExerciseRow => Db.projExRow
          { db with
            routineTemplates := db.routineTemplates ++
              [{ id := routineId, name := input.name, createdAt := now,
                 updatedAt := now }],
            routineExercises := db.routineExercises ++
              Db.buildREs routineId reId 0 input.exercises,
            routineExerciseSets := db.routineExerciseSets ++
              Db.buildAllSets reId setId 0 input.exercises } p.1)) =
        (((sortByKey (fun p => p.1.sortOrder)
          ((Db.buildREs routineId reId 0 input.exercises).flatMap
            (fun re => (db.exercises.filter
              (fun e => e.id == re.exerciseId)).map (fun e => (re, e))))).map
          Prod.fst).map (Db.projExRow
            { db with
              routineTemplates := db.routineTemplates ++
                [{ id := routineId, name := input.name, createdAt := now,
                   updatedAt := now }],
              routineExercises := db.routineExercises ++
                Db.buildREs routineId reId 0 input.exercises,
              routineExerciseSets := db.routineExerciseSets ++
                Db.buildAllSets reId setId 0 input.exercises })) := by
      rw [List.map_map]
      rfl
    rw [hsplit]
    rw [sortByKey_map (fun p : RoutineExerciseRow × ExerciseRow => p.1.sortOrder)
      (fun re : RoutineExerciseRow => re.sortOrder) Prod.fst
      (fun a => rfl) _ hordJ]
    rw [hfst]
    rw [sortByKey_map (fun re : RoutineExerciseRow => re.sortOrder)
      (fun e : CreateRoutineExerciseInput => e.order) _ (fun a => rfl) _
      hordersREs]
    rw [map_projExRow_buildREs _ routineId reId setId input.exercises 0
      hsetfilter hsetNodup]
    rfl
  constructor
  · unfold Db.getRoutineWithExercises
    have hfind : ({ db with
        routineTemplates := db.routineTemplates ++
          [{ id := routineId, name := input.name, createdAt := now,
             updatedAt := now }],
        routineExercises :=
          db.routineExercises ++ Db.buildREs routineId reId 0 input.exercises,
        routineExerciseSets :=
          db.routineExerciseSets ++
            Db.buildAllSets reId setId 0 input.exercises } : DB).routineTemplates.find?
        (fun t => t.id == routineId) =
        some { id := routineId, name := input.name, createdAt := now,
               updatedAt := now } := by
      show (db.routineTemplates ++
        [({ id := routineId, name := input.name, createdAt := now,
            updatedAt := now } : RoutineTemplateRow)]).find?
        (fun t => t.id == routineId) = _
      rw [find?_append_of_none _ _ _
        (fun t ht => beq_eq_false_iff_ne.mpr (htFresh t ht))]
      simp
    rw [hfind, hjoin]
  · exact hmapmain

/-- C5: for every `createRoutine(name, exercises)` input whose exercise ids
resolve in the catalog (catalog ids distinct), with fresh injective UUIDs
and with the per-template `order` values and per-exercise `setNumber`
values distinct (the data-model invariants), the operation succeeds and
`getRoutineWithExercises` on the returned id gives back exactly the input:
same name, same exercise count, and — projecting the stored rows back onto
the input fields — exactly the input exercises sorted by `order`, each with
exactly its input sets sorted by `setNumber`, regardless of the order in
which exercises and sets were supplied. -/
theorem c5_roundTrip (db : DB) (now : Int) (routineId : String)
    (reId : Nat → String) (setId : Nat → Nat → String)
    (input : CreateRoutineInput)
    (hcat : ∀ e ∈ input.exercises,
      db.exercises.any (fun x => x.id == e.exerciseId) = true)
    (hcatNodup : (db.exercises.map (fun e => e.id)).Nodup)
    (htFresh : ∀ t ∈ db.routineTemplates, t.id ≠ routineId)
    (hreNoTmpl : ∀ re ∈ db.routineExercises, re.routineTemplateId ≠ routineId)
    (hreFresh : ∀ i, ∀ re ∈ db.routineExercises, re.id ≠ reId i)
    (hreInj : ∀ i1 i2, reId i1 = reId i2 → i1 = i2)
    (hsetFresh : ∀ i k, ∀ s ∈ db.routineExerciseSets, s.id ≠ setId i k)
    (hsetGroupFresh : ∀ s ∈ db.routineExerciseSets, ∀ i,
      s.routineExerciseId ≠ reId i)
    (hsetInj : ∀ i1 k1 i2 k2, setId i1 k1 = setId i2 k2 → i1 = i2 ∧ k1 = k2)
    (hord : (input.exercises.map (fun e => e.order)).Nodup)
    (hsetNodup : ∀ e ∈ input.exercises,
      (e.sets.map (fun s => s.setNumber)).Nodup) :
    ∃ db1 r,
      Db.createRoutine db now routineId reId setId input = (db1, none) ∧
      Db.getRoutineWithExercises db1 routineId = some r ∧
      r.name = input.name ∧
      r.exercises.length = input.exercises.length ∧
      r.exercises.map Db.projEx = Db.normInput input.exercises := by
  have hcr := createRoutine_ok db now routineId reId setId input hcat htFresh
    hreFresh hreInj hsetFresh hsetInj
  have haux := c5_aux db now routineId reId setId input hcat hcatNodup htFresh
    hreNoTmpl hreInj hsetGroupFresh hord hsetNodup
  refine ⟨_, _, hcr, haux.1, rfl, ?_, haux.2⟩
  have h1 := congrArg List.length haux.2
  rw [List.length_map, List.length_map] at h1
  show ((sortByKey (fun p : RoutineExerciseRow × ExerciseRow => p.1.sortOrder)
    _).map _).length = _
  rw [List.length_map, h1]
  unfold Db.normInput
  rw [(sortByKey_perm _ _).length_eq, List.length_map]

theorem repId_inj (c : Char) (i1 i2 : Nat) (h : repId c i1 = repId c i2) :
    i1 = i2 := by
  unfold repId at h
  injection h with hdata
  injection hdata with _ htail
  have := congrArg List.length htail
  simpa using this

theorem replicate_marker_inj : ∀ (i1 i2 : Nat) (l1 l2 : List Char),
    List.replicate i1 'x' ++ 'y' :: l1 = List.replicate i2 'x' ++ 'y' :: l2 →
    i1 = i2 ∧ l1 = l2 := by
  intro i1
  induction i1 with
  | zero =>
    intro i2 l1 l2 h
    cases i2 with
    | zero =>
      refine ⟨rfl, ?_⟩
      simpa using h
    | succ i2 =>
      rw [List.replicate_succ] at h
      simp only [List.replicate, List.nil_append, List.cons_append,
        List.cons.injEq] at h
      exact absurd h.1 (by decide)
  | succ i1 ih =>
    intro i2 l1 l2 h
    cases i2 with
    | zero =>
      rw [List.replicate_succ] at h
      simp only [List.replicate, List.nil_append, List.cons_append,
        List.cons.injEq] at h
      exact absurd h.1 (by decide)
    | succ i2 =>
      rw [List.replicate_succ, List.replicate_succ] at h
      simp only [List.cons_append, List.cons.injEq] at h
      obtain ⟨h1, h2⟩ := ih i2 l1 l2 h.2
      exact ⟨by omega, h2⟩

theorem pairId_inj (i1 k1 i2 k2 : Nat) (h : pairId i1 k1 = pairId i2 k2) :
    i1 = i2 ∧ k1 = k2 := by
  unfold pairId at h
  injection h with hdata
  injection hdata with _ htail
  obtain ⟨h1, h2⟩ := replicate_marker_inj i1 i2 _ _ htail
  refine ⟨h1, ?_⟩
  have := congrArg List.length h2
  simpa using this

/-- C5 witness: the round-trip applied to a concrete unsorted input over
the seeded catalog. -/
theorem c5_roundTrip_witness :
    ∃ db1 r,
      Db.createRoutine c1db 1000 "T1" (repId 'R') pairId c5input = (db1, none) ∧
      Db.getRoutineWithExercises db1 "T1" = some r ∧
      r.name = c5input.name ∧
      r.exercises.length = c5input.exercises.length ∧
      r.exercises.map Db.projEx = Db.normInput c5input.exercises :=
  c5_roundTrip c1db 1000 "T1" (repId 'R') pairId c5input
    (by decide)
    (by decide)
    (fun t ht => absurd ht (List.not_mem_nil t))
    (fun re hre => absurd hre (List.not_mem_nil re))
    (fun i re hre => absurd hre (List.not_mem_nil re))
    (fun i1 i2 h => repId_inj 'R' i1 i2 h)
    (fun i k s hs => absurd hs (List.not_mem_nil s))
    (fun s hs => absurd hs (List.not_mem_nil s))
    (fun i1 k1 i2 k2 h => pairId_inj i1 k1 i2 k2 h)
    (by decide)
    (by decide)

-- ==================== CLAIM C8 ====================

theorem buildWEs_length (workoutId : String) (weId : Nat → String) :
    ∀ (l : List Db.RoutineExerciseWithDetails) (j : Nat),
    (Db.buildWEs workoutId weId j l).length = l.length
  | [], _ => rfl
  | x :: rest, j => by
    simp only [Db.buildWEs, List.length_cons]
    rw [buildWEs_length workoutId weId rest (j + 1)]

theorem buildWEs_getElem (workoutId : String) (weId : Nat → String) :
    ∀ (l : List Db.RoutineExerciseWithDetails) (j i : Nat)
      (x : Db.RoutineExerciseWithDetails),
    l[i]? = some x →
    (Db.buildWEs workoutId weId j l)[i]? =
      some (Db.mkWorkoutExerciseRow workoutId (weId (j + i)) x)
  | [], _, i, x, h => by simp at h
  | e :: rest, j, 0, x, h => by
    have he : e = x := by simpa using h
    subst he
    simp [Db.buildWEs]
  | e :: rest, j, i + 1, x, h => by
    simp only [Db.buildWEs, List.getElem?_cons_succ]
    have hidx : j + (i + 1) = (j + 1) + i := by omega
    rw [hidx]
    exact buildWEs_getElem workoutId weId rest (j + 1) i x (by simpa using h)

/-- A resolved template has a `routine_templates` row matching the id. -/
theorem template_any_of_get (db : DB) (routineId : String)
    (routine : Db.RoutineTemplateWithExercises)
    (h : Db.getRoutineWithExercises db routineId = some routine) :
    db.routineTemplates.any (fun t => t.id == routineId) = true := by
  revert h
  unfold Db.getRoutineWithExercises
  cases hfind : db.routineTemplates.find? (fun t => t.id == routineId) with
  | none => intro h; cases h
  | some t =>
    intro _
    have hpred := List.find?_some hfind
    exact List.any_eq_true.mpr ⟨t, List.mem_of_find?_eq_some hfind, hpred⟩

/-- Every exercise of a resolved aggregate carries the ids of a
`routine_exercises` row and resolves in the catalog. -/
theorem mem_exercises_of_get (db : DB) (routineId : String)
    (routine : Db.RoutineTemplateWithExercises)
    (h : Db.getRoutineWithExercises db routineId = some routine) :
    ∀ x ∈ routine.exercises,
      (∃ re ∈ db.routineExercises, x.id = re.id ∧ x.exerciseId = re.exerciseId) ∧
      (∃ e ∈ db.exercises, e.id = x.exerciseId) := by
  revert h
  unfold Db.getRoutineWithExercises
  cases hfind : db.routineTemplates.find? (fun t => t.id == routineId) with
  | none => intro h; cases h
  | some t =>
    intro h
    injection h with h2
    intro x hx
    rw [← h2] at hx
    obtain ⟨p, hp, hpx⟩ := List.mem_map.mp hx
    have hpj : p ∈ Db.routineJoinRows db routineId :=
      ((sortByKey_perm (fun p => p.1.sortOrder) _).mem_iff).mp hp
    unfold Db.routineJoinRows at hpj
    obtain ⟨re, hreF, hpin⟩ := List.mem_flatMap.mp hpj
    obtain ⟨hre, _⟩ := List.mem_filter.mp hreF
    obtain ⟨e, heF, hpe⟩ := List.mem_map.mp hpin
    obtain ⟨he, heid⟩ := List.mem_filter.mp heF
    rw [← hpx, ← hpe]
    exact ⟨⟨re, hre, rfl, rfl⟩, ⟨e, he, beq_iff_eq.mp heid⟩⟩

/-- The exercise loop of `startWorkout` succeeds and appends exactly the
built workout-exercise rows. -/
theorem runWEStmts_ok (workoutId : String) (weId : Nat → String)
    (hinj : ∀ i1 i2, weId i1 = weId i2 → i1 = i2) :
    ∀ (l : List Db.RoutineExerciseWithDetails) (j : Nat) (db : DB),
    db.workoutSessions.any (fun s => s.id == workoutId) = true →
    (∀ x ∈ l, db.exercises.any (fun e => e.id == x.exerciseId) = true) →
    (∀ x ∈ l, db.routineExercises.any (fun r2 => r2.id == x.id) = true) →
    (∀ i, j ≤ i → ∀ we ∈ db.workoutExercises, we.id ≠ weId i) →
    runInserts db (Db.workoutExerciseStmts workoutId weId j l) =
      ({ db with workoutExercises :=
          db.workoutExercises ++ Db.buildWEs workoutId weId j l }, none)
  | [], j, db, _, _, _, _ => by
    simp [Db.workoutExerciseStmts, Db.buildWEs, runInserts]
  | x :: rest, j, db, hsess, hex, hre, hfresh => by
    have hpk : db.workoutExercises.any (fun w2 => w2.id == weId j) = false :=
      any_beq_eq_false (fun w2 : WorkoutExerciseRow => w2.id) _ _
        (fun w2 hw2 => hfresh j le_rfl w2 hw2)
    have hnotsess : (!(db.workoutSessions.any
        (fun s => s.id == workoutId))) = false := by
      rw [hsess]
      rfl
    have hnotex : (!(db.exercises.any
        (fun e => e.id == x.exerciseId))) = false := by
      rw [hex x (List.mem_cons_self x rest)]
      rfl
    have hnotre : (!(db.routineExercises.any
        (fun r2 => r2.id == x.id))) = false := by
      rw [hre x (List.mem_cons_self x rest)]
      rfl
    have happly : applyInsert db
        (.wex (Db.mkWorkoutExerciseRow workoutId (weId j) x)) =
        .ok { db with workoutExercises := db.workoutExercises ++
          [Db.mkWorkoutExerciseRow workoutId (weId j) x] } := by
      simp only [applyInsert, Db.mkWorkoutExerciseRow]
      rw [if_neg (bool_ne_true hpk), if_neg (bool_ne_true hnotsess),
        if_neg (bool_ne_true hnotex), if_neg (bool_ne_true hnotre)]
    rw [Db.workoutExerciseStmts, runInserts_cons_ok db _ _ _ happly]
    rw [runWEStmts_ok workoutId weId hinj rest (j + 1)
      { db with workoutExercises := db.workoutExercises ++
        [Db.mkWorkoutExerciseRow workoutId (weId j) x] }
      hsess
      (fun x2 hx2 => hex x2 (List.mem_cons_of_mem x hx2))
      (fun x2 hx2 => hre x2 (List.mem_cons_of_mem x hx2))
      (by
        intro i hi we hwe
        rcases List.mem_append.mp hwe with hold | hnew
        · exact hfresh i (le_trans (Nat.le_succ j) hi) we hold
        · rcases List.mem_singleton.mp hnew with h1
          rw [h1]
          intro hid
          have := hinj j i hid
          omega)]
    simp [Db.buildWEs, List.append_assoc]

/-- C8: `startWorkout(templateId)` fails with the not-found error and
touches nothing when the template does not resolve; otherwise it creates
exactly one session row (`status = 'active'`, `startedAt = now`, name
snapshotted from the template) plus one workout-exercise row per routine
exercise — copying order, notes, exercise id and the back-reference — and
creates no `workout_sets` row (the result record leaves `workoutSets` and
every other table unchanged). -/
theorem c8_startWorkout_spec (db : DB) (now : Int) (workoutId : String)
    (weId : Nat → String) (routineId : String) :
    (Db.getRoutineWithExercises db routineId = none →
      Db.startWorkout db now workoutId weId routineId =
        (db, some "Routine not found")) ∧
    (∀ routine, Db.getRoutineWithExercises db routineId = some routine →
      (∀ s ∈ db.workoutSessions, s.id ≠ workoutId) →
      (∀ i, ∀ we ∈ db.workoutExercises, we.id ≠ weId i) →
      (∀ i1 i2, weId i1 = weId i2 → i1 = i2) →
      Db.startWorkout db now workoutId weId routineId =
        ({ db with
            workoutSessions := db.workoutSessions ++
              [{ id := workoutId, routineTemplateId := routineId,
                 name := routine.name, startedAt := now, completedAt := none,
                 notes := none, status := "active" }],
            workoutExercises := db.workoutExercises ++
              Db.buildWEs workoutId weId 0 routine.exercises }, none) ∧
        (Db.buildWEs workoutId weId 0 routine.exercises).length =
          routine.exercises.length ∧
        (∀ i x, routine.exercises[i]? = some x →
          (Db.buildWEs workoutId weId 0 routine.exercises)[i]? =
            some ({ id := weId i, workoutSessionId := workoutId,
                    exerciseId := x.exerciseId, routineExerciseId := some x.id,
                    sortOrder := x.order,
                    notes := x.notes } : WorkoutExerciseRow))) := by
  constructor
  · intro h
    unfold Db.startWorkout
    rw [h]
  · intro routine hroutine hsessFresh hweFresh hweInj
    have hanyT := template_any_of_get db routineId routine hroutine
    have hmem := mem_exercises_of_get db routineId routine hroutine
    have hpk : db.workoutSessions.any (fun s => s.id == workoutId) = false :=
      any_beq_eq_false (fun s : WorkoutSessionRow => s.id) _ _ hsessFresh
    have hnotT : (!(db.routineTemplates.any
        (fun t => t.id == routineId))) = false := by
      rw [hanyT]
      rfl
    have happly : applyInsert db
        (.sess { id := workoutId, routineTemplateId := routineId,
                 name := routine.name, startedAt := now, completedAt := none,
                 notes := none, status := "active" }) =
        .ok { db with workoutSessions := db.workoutSessions ++
          [{ id := workoutId, routineTemplateId := routineId,
             name := routine.name, startedAt := now, completedAt := none,
             notes := none, status := "active" }] } := by
      simp only [applyInsert]
      rw [if_neg (bool_ne_true hpk), if_neg (bool_ne_true hnotT)]
    refine ⟨?_, buildWEs_length workoutId weId routine.exercises 0, ?_⟩
    · have hrun : runInserts db
          (DbInsert.sess
            { id := workoutId, routineTemplateId := routineId,
              name := routine.name, startedAt := now, completedAt := none,
              notes := none, status := "active" } ::
            Db.workoutExerciseStmts workoutId weId 0 routine.exercises) =
          ({ db with
              workoutSessions := db.workoutSessions ++
                [{ id := workoutId, routineTemplateId := routineId,
                   name := routine.name, startedAt := now, completedAt := none,
                   notes := none, status := "active" }],
              workoutExercises := db.workoutExercises ++
                Db.buildWEs workoutId weId 0 routine.exercises }, none) := by
        rw [runInserts_cons_ok db _ _ _ happly]
        rw [runWEStmts_ok workoutId weId hweInj routine.exercises 0
          { db with workoutSessions := db.workoutSessions ++
            [{ id := workoutId, routineTemplateId := routineId,
               name := routine.name, startedAt := now, completedAt := none,
               notes := none, status := "active" }] }
          (by simp [List.any_append])
          (fun x hx => by
            obtain ⟨e, he, heid⟩ := (hmem x hx).2
            exact List.any_eq_true.mpr ⟨e, he, beq_iff_eq.mpr heid⟩)
          (fun x hx => by
            obtain ⟨re, hre, hid, _⟩ := (hmem x hx).1
            exact List.any_eq_true.mpr ⟨re, hre, beq_iff_eq.mpr hid.symm⟩)
          (fun i _ we hwe => hweFresh i we hwe)]
      unfold Db.startWorkout
      rw [hroutine]
      exact hrun
    · intro i x h
      have hg := buildWEs_getElem workoutId weId routine.exercises 0 i x h
      rw [Nat.zero_add] at hg
      exact hg

/-- C8 witness: starting a workout from the concrete one-exercise template,
and from a missing template. -/
theorem c8_startWorkout_spec_witness :
    Db.startWorkout c8db 1000 "W1" (repId 'W') "T1" =
      ({ c8db with
          workoutSessions := c8db.workoutSessions ++
            [{ id := "W1", routineTemplateId := "T1", name := c8routine.name,
               startedAt := 1000, completedAt := none, notes := none,
               status := "active" }],
          workoutExercises := c8db.workoutExercises ++
            Db.buildWEs "W1" (repId 'W') 0 c8routine.exercises }, none) :=
  ((c8_startWorkout_spec c8db 1000 "W1" (repId 'W') "T1").2 c8routine
    (by rfl)
    (fun s hs => absurd hs (List.not_mem_nil s))
    (fun i we hwe => absurd hwe (List.not_mem_nil we))
    (fun i1 i2 h => repId_inj 'W' i1 i2 h)).1

end FitnessApp